import Mathlib

/-!
Verification of the `gwctl` resource-model core
(`gwctl/pkg/resourcediscovery/resourcemodel.go`).

The Go code builds a graph of Gateway API resources (gateway classes,
namespaces, gateways, HTTP routes, backends, reference grants and policies
attached to them) and resolves effective and inherited policies over that
graph.  The development below is a shallow embedding of that file:

* Go maps (`map[K]*Node`) become association lists `List (K × Node)`;
  the list order stands for Go's (arbitrary) map iteration order, and
  `insertA` has Go's `m[k] = v` replace-or-add semantics.
* Go pointers between nodes become identifiers resolved through the
  model's top-level per-kind mappings, which is how the source describes
  its own references ("relation + lookup, never ownership").  A nil
  pointer is `none`; dereferencing nil is modelled by the distinguished
  error `Err.nilPanic`.
* Methods that mutate the receiver and return `error` become functions
  `ResourceModel → ResourceModel × Option Err`, so a pass that aborts
  with an error still keeps the partial updates it already wrote,
  exactly like the in-place mutation in Go.
* The `policymanager` package is not part of the verified source; the
  spec describes it as an abstract, pluggable policy-merge capability.
  It is modelled as the `PolicyManager` record of fallible merge
  operations, and all theorems quantify over it.
-/

set_option maxRecDepth 10000

namespace gwctl

/-! ### Association-list maps

Go maps become association lists.  `lookupA` finds the first binding,
`insertA` replaces the first binding or appends a new one (Go `m[k] = v`),
`copyA` is Go's `maps.Copy(dst, src)`. -/

def lookupA [DecidableEq κ] (k : κ) : List (κ × ν) → Option ν
  | [] => none
  | (k', v) :: rest => if k' = k then some v else lookupA k rest

def insertA [DecidableEq κ] (k : κ) (v : ν) : List (κ × ν) → List (κ × ν)
  | [] => [(k, v)]
  | (k', v') :: rest => if k' = k then (k, v) :: rest else (k', v') :: insertA k v rest

def copyA [DecidableEq κ] (dst src : List (κ × ν)) : List (κ × ν) :=
  src.foldl (fun d p => insertA p.1 p.2 d) dst

/-- Adding an identifier to a reverse-index set (Go stores reverse indexes as
maps keyed by identifier, so re-adding an existing key is a no-op). -/
def insertRef [DecidableEq α] (a : α) (l : List α) : List α :=
  if a ∈ l then l else l ++ [a]

/-! ### Identifiers

Deterministic identifiers computed from each resource's natural key
(name, namespace+name, or group+kind+namespace+name). -/

abbrev gatewayClassID := String
abbrev namespaceID := String

structure gatewayID where
  ns : String
  name : String
deriving DecidableEq, Repr

structure httpRouteID where
  ns : String
  name : String
deriving DecidableEq, Repr

structure backendID where
  group : String
  kind : String
  ns : String
  name : String
deriving DecidableEq, Repr

structure referenceGrantID where
  ns : String
  name : String
deriving DecidableEq, Repr

/-- Modelled from the spec: policy identifiers are opaque stable values
computed from the policy's natural key (its CRD / merge-kind identifier
plus namespace plus name); the concrete `PolicyID` helper lives outside
the verified source file. -/
structure policyID where
  crdID : String
  ns : String
  name : String
deriving DecidableEq, Repr

def GatewayClassID (name : String) : gatewayClassID := name
def NamespaceID (name : String) : namespaceID := name
def GatewayID (ns name : String) : gatewayID := ⟨ns, name⟩
def HTTPRouteID (ns name : String) : httpRouteID := ⟨ns, name⟩
def BackendID (group kind ns name : String) : backendID := ⟨group, kind, ns, name⟩

/-! ### Resources

Only the attributes the algorithm reads. -/

structure GatewayClass where
  name : String
deriving DecidableEq, Repr

structure Namespace where
  name : String
deriving DecidableEq, Repr

structure Gateway where
  ns : String
  name : String
deriving DecidableEq, Repr

structure HTTPRoute where
  ns : String
  name : String
deriving DecidableEq, Repr

structure Backend where
  group : String
  kind : String
  ns : String
  name : String
deriving DecidableEq, Repr

structure ReferenceGrant where
  ns : String
  name : String
deriving DecidableEq, Repr

/-- Modelled from the spec: the abstract policy capability object, exposing
`TargetRef() → (group, kind, namespace, name)`, `Name()`, `IsInherited()`
and an opaque comparable merge-kind identifier (`PolicyCrdID`); the
concrete `policymanager.Policy` type is outside the verified source. -/
structure Policy where
  crdID : String
  ns : String
  name : String
  isInherited : Bool
  targetGroup : String
  targetKind : String
  targetNs : String
  targetName : String
deriving DecidableEq, Repr

def Policy.id (p : Policy) : policyID := ⟨p.crdID, p.ns, p.name⟩

/-- `gatewayv1.GroupName`: the routing API group that GatewayClass/Gateway/
HTTPRoute targets are dispatched on. -/
def gatewayGroupName : String := "gateway.networking.k8s.io"

/-- `corev1.GroupName`: the core API group (empty string). -/
def coreGroupName : String := ""

/-! ### Nodes -/

structure PolicyNode where
  policy : Policy
  gatewayClass : Option gatewayClassID := none
  gateway : Option gatewayID := none
  httpRoute : Option httpRouteID := none
  ns : Option namespaceID := none
  backend : Option backendID := none
deriving DecidableEq, Repr

def NewPolicyNode (p : Policy) : PolicyNode := { policy := p }

structure GatewayClassNode where
  gatewayClass : GatewayClass
  gateways : List gatewayID := []
  policies : List (policyID × Policy) := []
deriving DecidableEq, Repr

def NewGatewayClassNode (gc : GatewayClass) : GatewayClassNode := { gatewayClass := gc }

def GatewayClassNode.id (n : GatewayClassNode) : gatewayClassID :=
  GatewayClassID n.gatewayClass.name

structure NamespaceNode where
  namespaceResource : Namespace
  gateways : List gatewayID := []
  httpRoutes : List httpRouteID := []
  backends : List backendID := []
  policies : List (policyID × Policy) := []
deriving DecidableEq, Repr

def NewNamespaceNode (n : Namespace) : NamespaceNode := { namespaceResource := n }

def NamespaceNode.id (n : NamespaceNode) : namespaceID :=
  NamespaceID n.namespaceResource.name

structure GatewayNode where
  gateway : Gateway
  gatewayClass : Option gatewayClassID := none
  ns : Option namespaceID := none
  httpRoutes : List httpRouteID := []
  policies : List (policyID × Policy) := []
  effectivePolicies : Option (List (String × Policy)) := none
  inheritedPolicies : Option (List (policyID × Policy)) := none
deriving DecidableEq, Repr

def NewGatewayNode (g : Gateway) : GatewayNode := { gateway := g }

def GatewayNode.id (n : GatewayNode) : gatewayID :=
  GatewayID n.gateway.ns n.gateway.name

structure HTTPRouteNode where
  httpRoute : HTTPRoute
  ns : Option namespaceID := none
  gateways : List gatewayID := []
  backends : List backendID := []
  policies : List (policyID × Policy) := []
  effectivePolicies : Option (List (gatewayID × List (String × Policy))) := none
  inheritedPolicies : Option (List (policyID × Policy)) := none
deriving DecidableEq, Repr

def NewHTTPRouteNode (r : HTTPRoute) : HTTPRouteNode := { httpRoute := r }

def HTTPRouteNode.id (n : HTTPRouteNode) : httpRouteID :=
  HTTPRouteID n.httpRoute.ns n.httpRoute.name

structure BackendNode where
  backend : Backend
  ns : Option namespaceID := none
  httpRoutes : List httpRouteID := []
  referenceGrants : List referenceGrantID := []
  policies : List (policyID × Policy) := []
  effectivePolicies : Option (List (gatewayID × List (String × Policy))) := none
  inheritedPolicies : Option (List (policyID × Policy)) := none
deriving DecidableEq, Repr

def NewBackendNode (b : Backend) : BackendNode := { backend := b }

def BackendNode.id (n : BackendNode) : backendID :=
  BackendID n.backend.group n.backend.kind n.backend.ns n.backend.name

structure ReferenceGrantNode where
  referenceGrant : ReferenceGrant
  backends : List backendID := []
deriving DecidableEq, Repr

def NewReferenceGrantNode (rg : ReferenceGrant) : ReferenceGrantNode :=
  { referenceGrant := rg }

def ReferenceGrantNode.id (n : ReferenceGrantNode) : referenceGrantID :=
  ⟨n.referenceGrant.ns, n.referenceGrant.name⟩

/-! ### The resource model -/

structure ResourceModel where
  gatewayClasses : List (gatewayClassID × GatewayClassNode) := []
  namespaces : List (namespaceID × NamespaceNode) := []
  gateways : List (gatewayID × GatewayNode) := []
  httpRoutes : List (httpRouteID × HTTPRouteNode) := []
  backends : List (backendID × BackendNode) := []
  referenceGrants : List (referenceGrantID × ReferenceGrantNode) := []
  policies : List (policyID × PolicyNode) := []
deriving DecidableEq, Repr

def ResourceModel.empty : ResourceModel := {}

/-- The identity of a policy target, as computed by the attacher; used only
to report diagnostics for dropped policies and broken connections. -/
inductive TargetID where
  | gatewayClass (id : gatewayClassID)
  | gateway (id : gatewayID)
  | httpRoute (id : httpRouteID)
  | ns (id : namespaceID)
  | backend (id : backendID)
  | referenceGrant (id : referenceGrantID)
deriving DecidableEq, Repr

/-- One structured diagnostic (`klog.V(1).ErrorS` in the source): either a
connect endpoint that does not exist in the model, or a policy skipped
because its computed target does not exist. -/
inductive Diag where
  | missingNode (t : TargetID)
  | policySkipped (policyName : String) (t : TargetID)
deriving DecidableEq, Repr

/-! ### Graph builder: node insertion

Each `add*` function creates a node per resource and inserts it only if no
node with that identity is present yet (idempotent re-insertion). -/

def addGatewayClasses (rm : ResourceModel) : List GatewayClass → ResourceModel
  | [] => rm
  | gatewayClass :: rest =>
    let gatewayClassNode := NewGatewayClassNode gatewayClass
    match lookupA gatewayClassNode.id rm.gatewayClasses with
    | some _ => addGatewayClasses rm rest
    | none =>
      addGatewayClasses
        { rm with gatewayClasses := insertA gatewayClassNode.id gatewayClassNode rm.gatewayClasses }
        rest

def addNamespace (rm : ResourceModel) : List Namespace → ResourceModel
  | [] => rm
  | n :: rest =>
    let namespaceNode := NewNamespaceNode n
    match lookupA namespaceNode.id rm.namespaces with
    | some _ => addNamespace rm rest
    | none =>
      addNamespace { rm with namespaces := insertA namespaceNode.id namespaceNode rm.namespaces } rest

def addGateways (rm : ResourceModel) : List Gateway → ResourceModel
  | [] => rm
  | gateway :: rest =>
    let gatewayNode := NewGatewayNode gateway
    match lookupA gatewayNode.id rm.gateways with
    | some _ => addGateways rm rest
    | none => addGateways { rm with gateways := insertA gatewayNode.id gatewayNode rm.gateways } rest

def addHTTPRoutes (rm : ResourceModel) : List HTTPRoute → ResourceModel
  | [] => rm
  | httpRoute :: rest =>
    let httpRouteNode := NewHTTPRouteNode httpRoute
    match lookupA httpRouteNode.id rm.httpRoutes with
    | some _ => addHTTPRoutes rm rest
    | none =>
      addHTTPRoutes { rm with httpRoutes := insertA httpRouteNode.id httpRouteNode rm.httpRoutes } rest

def addBackends (rm : ResourceModel) : List Backend → ResourceModel
  | [] => rm
  | backend :: rest =>
    let backendNode := NewBackendNode backend
    match lookupA backendNode.id rm.backends with
    | some _ => addBackends rm rest
    | none => addBackends { rm with backends := insertA backendNode.id backendNode rm.backends } rest

def addReferenceGrants (rm : ResourceModel) : List ReferenceGrant → ResourceModel
  | [] => rm
  | referenceGrant :: rest =>
    let referenceGrantNode := NewReferenceGrantNode referenceGrant
    match lookupA referenceGrantNode.id rm.referenceGrants with
    | some _ => addReferenceGrants rm rest
    | none =>
      addReferenceGrants
        { rm with referenceGrants := insertA referenceGrantNode.id referenceGrantNode rm.referenceGrants }
        rest

/-! ### Graph builder: connect operations

Each connect looks up both endpoints; if either is missing it is a no-op
that emits a diagnostic.  On success it sets the child's parent reference
and adds the child to the parent's reverse index in one operation. -/

def connectGatewayWithGatewayClass (rm : ResourceModel) (gwID : gatewayID)
    (gcID : gatewayClassID) : ResourceModel × List Diag :=
  match lookupA gwID rm.gateways with
  | none => (rm, [Diag.missingNode (TargetID.gateway gwID)])
  | some gatewayNode =>
    match lookupA gcID rm.gatewayClasses with
    | none => (rm, [Diag.missingNode (TargetID.gatewayClass gcID)])
    | some gatewayClassNode =>
      ({ rm with
          gateways := insertA gwID { gatewayNode with gatewayClass := some gcID } rm.gateways,
          gatewayClasses :=
            insertA gcID { gatewayClassNode with gateways := insertRef gwID gatewayClassNode.gateways }
              rm.gatewayClasses }, [])

def connectHTTPRouteWithGateway (rm : ResourceModel) (hrID : httpRouteID)
    (gwID : gatewayID) : ResourceModel × List Diag :=
  match lookupA hrID rm.httpRoutes with
  | none => (rm, [Diag.missingNode (TargetID.httpRoute hrID)])
  | some httpRouteNode =>
    match lookupA gwID rm.gateways with
    | none => (rm, [Diag.missingNode (TargetID.gateway gwID)])
    | some gatewayNode =>
      ({ rm with
          httpRoutes :=
            insertA hrID { httpRouteNode with gateways := insertRef gwID httpRouteNode.gateways }
              rm.httpRoutes,
          gateways :=
            insertA gwID { gatewayNode with httpRoutes := insertRef hrID gatewayNode.httpRoutes }
              rm.gateways }, [])

def connectHTTPRouteWithBackend (rm : ResourceModel) (hrID : httpRouteID)
    (bID : backendID) : ResourceModel × List Diag :=
  match lookupA hrID rm.httpRoutes with
  | none => (rm, [Diag.missingNode (TargetID.httpRoute hrID)])
  | some httpRouteNode =>
    match lookupA bID rm.backends with
    | none => (rm, [Diag.missingNode (TargetID.backend bID)])
    | some backendNode =>
      ({ rm with
          httpRoutes :=
            insertA hrID { httpRouteNode with backends := insertRef bID httpRouteNode.backends }
              rm.httpRoutes,
          backends :=
            insertA bID { backendNode with httpRoutes := insertRef hrID backendNode.httpRoutes }
              rm.backends }, [])

def connectGatewayWithNamespace (rm : ResourceModel) (gwID : gatewayID)
    (nsID : namespaceID) : ResourceModel × List Diag :=
  match lookupA gwID rm.gateways with
  | none => (rm, [Diag.missingNode (TargetID.gateway gwID)])
  | some gatewayNode =>
    match lookupA nsID rm.namespaces with
    | none => (rm, [Diag.missingNode (TargetID.ns nsID)])
    | some namespaceNode =>
      ({ rm with
          gateways := insertA gwID { gatewayNode with ns := some nsID } rm.gateways,
          namespaces :=
            insertA nsID { namespaceNode with gateways := insertRef gwID namespaceNode.gateways }
              rm.namespaces }, [])

def connectHTTPRouteWithNamespace (rm : ResourceModel) (hrID : httpRouteID)
    (nsID : namespaceID) : ResourceModel × List Diag :=
  match lookupA hrID rm.httpRoutes with
  | none => (rm, [Diag.missingNode (TargetID.httpRoute hrID)])
  | some httpRouteNode =>
    match lookupA nsID rm.namespaces with
    | none => (rm, [Diag.missingNode (TargetID.ns nsID)])
    | some namespaceNode =>
      ({ rm with
          httpRoutes := insertA hrID { httpRouteNode with ns := some nsID } rm.httpRoutes,
          namespaces :=
            insertA nsID { namespaceNode with httpRoutes := insertRef hrID namespaceNode.httpRoutes }
              rm.namespaces }, [])

def connectBackendWithNamespace (rm : ResourceModel) (bID : backendID)
    (nsID : namespaceID) : ResourceModel × List Diag :=
  match lookupA bID rm.backends with
  | none => (rm, [Diag.missingNode (TargetID.backend bID)])
  | some backendNode =>
    match lookupA nsID rm.namespaces with
    | none => (rm, [Diag.missingNode (TargetID.ns nsID)])
    | some namespaceNode =>
      ({ rm with
          backends := insertA bID { backendNode with ns := some nsID } rm.backends,
          namespaces :=
            insertA nsID { namespaceNode with backends := insertRef bID namespaceNode.backends }
              rm.namespaces }, [])

def connectReferenceGrantWithBackend (rm : ResourceModel) (rgID : referenceGrantID)
    (bID : backendID) : ResourceModel × List Diag :=
  match lookupA rgID rm.referenceGrants with
  | none => (rm, [Diag.missingNode (TargetID.referenceGrant rgID)])
  | some referenceGrantNode =>
    match lookupA bID rm.backends with
    | none => (rm, [Diag.missingNode (TargetID.backend bID)])
    | some backendNode =>
      ({ rm with
          referenceGrants :=
            insertA rgID { referenceGrantNode with backends := insertRef bID referenceGrantNode.backends }
              rm.referenceGrants,
          backends :=
            insertA bID { backendNode with referenceGrants := insertRef rgID backendNode.referenceGrants }
              rm.backends }, [])

/-! ### Policy attacher

`addPolicyIfTargetExists` resolves each policy's target by a nested
group/kind dispatch; a policy whose target node is absent is dropped with
a diagnostic and the rest of the batch is still processed.  A policy in
the routing group whose kind matches none of GatewayClass / Gateway /
HTTPRoute falls through the inner switch and is dropped silently. -/

def attachOne (rm : ResourceModel) (policy : Policy) : ResourceModel × List Diag :=
  let policyNode := NewPolicyNode policy
  if policy.targetGroup = gatewayGroupName then
    if policy.targetKind = "GatewayClass" then
      let gwcID := GatewayClassID policy.targetName
      match lookupA gwcID rm.gatewayClasses with
      | none => (rm, [Diag.policySkipped policy.name (TargetID.gatewayClass gwcID)])
      | some gatewayClassNode =>
        ({ rm with
            policies := insertA policy.id { policyNode with gatewayClass := some gwcID } rm.policies,
            gatewayClasses :=
              insertA gwcID
                { gatewayClassNode with policies := insertA policy.id policy gatewayClassNode.policies }
                rm.gatewayClasses }, [])
    else if policy.targetKind = "Gateway" then
      let gwID := GatewayID policy.targetNs policy.targetName
      match lookupA gwID rm.gateways with
      | none => (rm, [Diag.policySkipped policy.name (TargetID.gateway gwID)])
      | some gatewayNode =>
        ({ rm with
            policies := insertA policy.id { policyNode with gateway := some gwID } rm.policies,
            gateways :=
              insertA gwID { gatewayNode with policies := insertA policy.id policy gatewayNode.policies }
                rm.gateways }, [])
    else if policy.targetKind = "HTTPRoute" then
      let hrID := HTTPRouteID policy.targetNs policy.targetName
      match lookupA hrID rm.httpRoutes with
      | none => (rm, [Diag.policySkipped policy.name (TargetID.httpRoute hrID)])
      | some httpRouteNode =>
        ({ rm with
            policies := insertA policy.id { policyNode with httpRoute := some hrID } rm.policies,
            httpRoutes :=
              insertA hrID { httpRouteNode with policies := insertA policy.id policy httpRouteNode.policies }
                rm.httpRoutes }, [])
    else
      (rm, [])
  else if policy.targetGroup = coreGroupName ∧ policy.targetKind = "Namespace" then
    let nsID := NamespaceID policy.targetName
    match lookupA nsID rm.namespaces with
    | none => (rm, [Diag.policySkipped policy.name (TargetID.ns nsID)])
    | some namespaceNode =>
      ({ rm with
          policies := insertA policy.id { policyNode with ns := some nsID } rm.policies,
          namespaces :=
            insertA nsID { namespaceNode with policies := insertA policy.id policy namespaceNode.policies }
              rm.namespaces }, [])
  else
    let bID := BackendID policy.targetGroup policy.targetKind policy.targetNs policy.targetName
    match lookupA bID rm.backends with
    | none => (rm, [Diag.policySkipped policy.name (TargetID.backend bID)])
    | some backendNode =>
      ({ rm with
          policies := insertA policy.id { policyNode with backend := some bID } rm.policies,
          backends :=
            insertA bID { backendNode with policies := insertA policy.id policy backendNode.policies }
              rm.backends }, [])

def addPolicyIfTargetExists (rm : ResourceModel) : List Policy → ResourceModel × List Diag
  | [] => (rm, [])
  | policy :: rest =>
    let step := attachOne rm policy
    let restResult := addPolicyIfTargetExists step.1 rest
    (restResult.1, step.2 ++ restResult.2)

/-! ### The policy-merge capability -/

/-- Modelled from the spec: the pluggable `policymanager` merge capability
(not part of the verified source file).  It supplies three fallible merge
operations: merge same-kind policies found at one hierarchy level into a
per-kind mapping, merge two per-kind mappings of different hierarchy
levels (ancestor first, more specific second), and merge two per-kind
mappings that are peers at the same hierarchy level. -/
structure PolicyManager where
  MergePoliciesOfSimilarKind : List Policy → Except String (List (String × Policy))
  MergePoliciesOfDifferentHierarchy :
    List (String × Policy) → List (String × Policy) → Except String (List (String × Policy))
  MergePoliciesOfSameHierarchy :
    List (String × Policy) → List (String × Policy) → Except String (List (String × Policy))

/-- Errors a resolution pass can stop with: a merge conflict reported by the
policy capability, or a nil-pointer dereference (a Go runtime panic). -/
inductive Err where
  | mergeConflict (msg : String)
  | nilPanic
deriving DecidableEq, Repr

/-- Wrap a capability result: capability errors surface as merge conflicts. -/
def wrapMerge : Except String α → Except Err α
  | .ok a => .ok a
  | .error msg => .error (.mergeConflict msg)

/-! ### Sorting policies before merging -/

/-- The sort key used by `convertPoliciesMapToSlice`:
`fmt.Sprintf("%v/%v/%v", PolicyCrdID, namespace, name)`, compared by Go's
byte-wise string order, which on these keys is the lexicographic order on
the character list. -/
def policySortKey (p : Policy) : List Char :=
  (p.crdID ++ "/" ++ p.ns ++ "/" ++ p.name).data

def policyLe (p q : Policy) : Prop := policySortKey p ≤ policySortKey q

instance : DecidableRel policyLe := fun p q =>
  inferInstanceAs (Decidable (policySortKey p ≤ policySortKey q))

/-- Collect the values of a policy mapping and sort them ascending by the
concatenated `crdID/namespace/name` string key. -/
def convertPoliciesMapToSlice (policies : List (policyID × Policy)) : List Policy :=
  List.insertionSort policyLe (policies.map Prod.snd)

/-! ### Effective-policy computation, per node

The body of each pass's loop, written against the parts of the model the
loop reads (which the pass itself never writes): the gateway pass reads
the class and namespace mappings, the route pass reads the gateway and
namespace mappings, the backend pass reads the route and namespace
mappings. -/

def derefNamespace (nss : List (namespaceID × NamespaceNode)) :
    Option namespaceID → Except Err NamespaceNode
  | none => .error .nilPanic
  | some nsID =>
    match lookupA nsID nss with
    | none => .error .nilPanic
    | some namespaceNode => .ok namespaceNode

def gatewayEffective (pm : PolicyManager) (gcs : List (gatewayClassID × GatewayClassNode))
    (nss : List (namespaceID × NamespaceNode)) (gcID : gatewayClassID) (g : GatewayNode) :
    Except Err (List (String × Policy)) := do
  let gatewayClassNode ←
    match lookupA gcID gcs with
    | none => Except.error Err.nilPanic
    | some n => Except.ok n
  let namespaceNode ← derefNamespace nss g.ns
  let gatewayClassPolicies := convertPoliciesMapToSlice gatewayClassNode.policies
  let gatewayNamespacePolicies := convertPoliciesMapToSlice namespaceNode.policies
  let gatewayPolicies := convertPoliciesMapToSlice g.policies
  let gatewayClassPoliciesByKind ← wrapMerge (pm.MergePoliciesOfSimilarKind gatewayClassPolicies)
  let gatewayNamespacePoliciesByKind ← wrapMerge (pm.MergePoliciesOfSimilarKind gatewayNamespacePolicies)
  let gatewayPoliciesByKind ← wrapMerge (pm.MergePoliciesOfSimilarKind gatewayPolicies)
  let result ←
    wrapMerge (pm.MergePoliciesOfDifferentHierarchy gatewayClassPoliciesByKind gatewayNamespacePoliciesByKind)
  let result ← wrapMerge (pm.MergePoliciesOfDifferentHierarchy result gatewayPoliciesByKind)
  Except.ok result

/-- Step 3 of the route pass: loop over the route's gateways, merging the
gateway's effective policies with the route-namespace and route per-kind
mappings, producing a result partitioned by gateway. -/
def routeGatewaysLoop (pm : PolicyManager) (gws : List (gatewayID × GatewayNode))
    (nsByKind rByKind : List (String × Policy)) :
    List gatewayID → List (gatewayID × List (String × Policy)) →
    Except Err (List (gatewayID × List (String × Policy)))
  | [], result => .ok result
  | gwID :: rest, result =>
    match lookupA gwID gws with
    | none => .error .nilPanic
    | some gatewayNode => do
      let gatewayPoliciesByKind := gatewayNode.effectivePolicies.getD []
      let mergedPolicies ← wrapMerge (pm.MergePoliciesOfDifferentHierarchy gatewayPoliciesByKind nsByKind)
      let mergedPolicies ← wrapMerge (pm.MergePoliciesOfDifferentHierarchy mergedPolicies rByKind)
      routeGatewaysLoop pm gws nsByKind rByKind rest (insertA gwID mergedPolicies result)

def routeEffective (pm : PolicyManager) (gws : List (gatewayID × GatewayNode))
    (nss : List (namespaceID × NamespaceNode)) (r : HTTPRouteNode) :
    Except Err (List (gatewayID × List (String × Policy))) := do
  let namespaceNode ← derefNamespace nss r.ns
  let httpRoutePolicies := convertPoliciesMapToSlice r.policies
  let httpRouteNamespacePolicies := convertPoliciesMapToSlice namespaceNode.policies
  let httpRoutePoliciesByKind ← wrapMerge (pm.MergePoliciesOfSimilarKind httpRoutePolicies)
  let httpRouteNamespacePoliciesByKind ← wrapMerge (pm.MergePoliciesOfSimilarKind httpRouteNamespacePolicies)
  routeGatewaysLoop pm gws httpRouteNamespacePoliciesByKind httpRoutePoliciesByKind r.gateways []

/-- Inner loop of Step 3 of the backend pass: fold one route's per-gateway
effective policies into the accumulated result with the same-hierarchy
(peer) merge.  A gateway not yet in the result contributes against the
zero-value (empty) mapping. -/
def backendGatewayFold (pm : PolicyManager) :
    List (gatewayID × List (String × Policy)) → List (gatewayID × List (String × Policy)) →
    Except Err (List (gatewayID × List (String × Policy)))
  | [], result => .ok result
  | (gwID, policies) :: rest, result => do
    let merged ← wrapMerge (pm.MergePoliciesOfSameHierarchy ((lookupA gwID result).getD []) policies)
    backendGatewayFold pm rest (insertA gwID merged result)

/-- Step 3 of the backend pass: loop over the backend's routes, folding each
route's per-gateway effective policies into the result. -/
def backendRoutesLoop (pm : PolicyManager) (hrs : List (httpRouteID × HTTPRouteNode)) :
    List httpRouteID → List (gatewayID × List (String × Policy)) →
    Except Err (List (gatewayID × List (String × Policy)))
  | [], result => .ok result
  | hrID :: rest, result =>
    match lookupA hrID hrs with
    | none => .error .nilPanic
    | some httpRouteNode => do
      let result ← backendGatewayFold pm (httpRouteNode.effectivePolicies.getD []) result
      backendRoutesLoop pm hrs rest result

/-- Step 4 of the backend pass: only after all routes are folded in, overlay
(per gateway) the backend-namespace and then the backend per-kind mappings
with the different-hierarchy merge. -/
def backendOverlayLoop (pm : PolicyManager) (nsByKind bByKind : List (String × Policy)) :
    List (gatewayID × List (String × Policy)) →
    Except Err (List (gatewayID × List (String × Policy)))
  | [] => .ok []
  | (gwID, v) :: rest => do
    let v ← wrapMerge (pm.MergePoliciesOfDifferentHierarchy v nsByKind)
    let v ← wrapMerge (pm.MergePoliciesOfDifferentHierarchy v bByKind)
    let rest' ← backendOverlayLoop pm nsByKind bByKind rest
    Except.ok ((gwID, v) :: rest')

def backendEffective (pm : PolicyManager) (hrs : List (httpRouteID × HTTPRouteNode))
    (nss : List (namespaceID × NamespaceNode)) (b : BackendNode) :
    Except Err (List (gatewayID × List (String × Policy))) := do
  let namespaceNode ← derefNamespace nss b.ns
  let backendPolicies := convertPoliciesMapToSlice b.policies
  let backendNamespacePolicies := convertPoliciesMapToSlice namespaceNode.policies
  let backendPoliciesByKind ← wrapMerge (pm.MergePoliciesOfSimilarKind backendPolicies)
  let backendNamespacePoliciesByKind ← wrapMerge (pm.MergePoliciesOfSimilarKind backendNamespacePolicies)
  let result ← backendRoutesLoop pm hrs b.httpRoutes []
  backendOverlayLoop pm backendNamespacePoliciesByKind backendPoliciesByKind result

/-! ### The pass driver

Every pass is a `for … range` loop over one kind's mapping that either
skips a node (`continue`), aborts the whole pass returning the error
(`return err`, keeping updates already written in place), or stores the
node's freshly computed field and moves on. -/

def passFold [DecidableEq κ] (f : κ → ν → Option (Except Err ν)) :
    List (κ × ν) → List (κ × ν) → List (κ × ν) × Option Err
  | acc, [] => (acc, none)
  | acc, (k, v) :: rest =>
    match f k v with
    | none => passFold f acc rest
    | some (.error e) => (acc, some e)
    | some (.ok v') => passFold f (insertA k v' acc) rest

/-! ### Effective-policy passes -/

/-- Loop body of the gateway pass: skip gateways whose GatewayClass
reference is unresolved; otherwise compute and store effective policies. -/
def gatewayEffStep (pm : PolicyManager) (gcs : List (gatewayClassID × GatewayClassNode))
    (nss : List (namespaceID × NamespaceNode)) (_gwID : gatewayID) (g : GatewayNode) :
    Option (Except Err GatewayNode) :=
  match g.gatewayClass with
  | none => none
  | some gcID =>
    match gatewayEffective pm gcs nss gcID g with
    | .error e => some (.error e)
    | .ok result => some (.ok { g with effectivePolicies := some result })

def calculateEffectivePoliciesForGateways (pm : PolicyManager) (rm : ResourceModel) :
    ResourceModel × Option Err :=
  let p := passFold (gatewayEffStep pm rm.gatewayClasses rm.namespaces) rm.gateways rm.gateways
  ({ rm with gateways := p.1 }, p.2)

def routeEffStep (pm : PolicyManager) (gws : List (gatewayID × GatewayNode))
    (nss : List (namespaceID × NamespaceNode)) (_hrID : httpRouteID) (r : HTTPRouteNode) :
    Option (Except Err HTTPRouteNode) :=
  match routeEffective pm gws nss r with
  | .error e => some (.error e)
  | .ok result => some (.ok { r with effectivePolicies := some result })

def calculateEffectivePoliciesForHTTPRoutes (pm : PolicyManager) (rm : ResourceModel) :
    ResourceModel × Option Err :=
  let p := passFold (routeEffStep pm rm.gateways rm.namespaces) rm.httpRoutes rm.httpRoutes
  ({ rm with httpRoutes := p.1 }, p.2)

def backendEffStep (pm : PolicyManager) (hrs : List (httpRouteID × HTTPRouteNode))
    (nss : List (namespaceID × NamespaceNode)) (_bID : backendID) (b : BackendNode) :
    Option (Except Err BackendNode) :=
  match backendEffective pm hrs nss b with
  | .error e => some (.error e)
  | .ok result => some (.ok { b with effectivePolicies := some result })

def calculateEffectivePoliciesForBackends (pm : PolicyManager) (rm : ResourceModel) :
    ResourceModel × Option Err :=
  let p := passFold (backendEffStep pm rm.httpRoutes rm.namespaces) rm.backends rm.backends
  ({ rm with backends := p.1 }, p.2)

/-- Run the three effective-policy passes in dependency order, stopping at
the first pass that reports an error (the partially updated model is
kept, as the Go methods mutate the receiver in place). -/
def calculateEffectivePolicies (pm : PolicyManager) (rm : ResourceModel) :
    ResourceModel × Option Err :=
  let g := calculateEffectivePoliciesForGateways pm rm
  match g.2 with
  | some e => (g.1, some e)
  | none =>
    let r := calculateEffectivePoliciesForHTTPRoutes pm g.1
    match r.2 with
    | some e => (r.1, some e)
    | none => calculateEffectivePoliciesForBackends pm r.1

/-! ### Inherited-policy passes

These consult only the attached policies and each policy's `IsInherited`
flag; the merge capability is never involved. -/

def filterInheritablePolicies (policies : List (policyID × Policy)) : List (policyID × Policy) :=
  policies.filter (fun p => p.2.isInherited)

def gatewayInherited (gcs : List (gatewayClassID × GatewayClassNode))
    (nss : List (namespaceID × NamespaceNode)) (g : GatewayNode) :
    Except Err (List (policyID × Policy)) := do
  let namespaceNode ← derefNamespace nss g.ns
  let result := copyA [] (filterInheritablePolicies namespaceNode.policies)
  match g.gatewayClass with
  | none => Except.ok result
  | some gcID =>
    match lookupA gcID gcs with
    | none => Except.error Err.nilPanic
    | some gatewayClassNode =>
      Except.ok (copyA result (filterInheritablePolicies gatewayClassNode.policies))

def gatewayInhStep (gcs : List (gatewayClassID × GatewayClassNode))
    (nss : List (namespaceID × NamespaceNode)) (_gwID : gatewayID) (g : GatewayNode) :
    Option (Except Err GatewayNode) :=
  match gatewayInherited gcs nss g with
  | .error e => some (.error e)
  | .ok result => some (.ok { g with inheritedPolicies := some result })

def calculateInheritedPoliciesForGateways (rm : ResourceModel) : ResourceModel × Option Err :=
  let p := passFold (gatewayInhStep rm.gatewayClasses rm.namespaces) rm.gateways rm.gateways
  ({ rm with gateways := p.1 }, p.2)

def routeInhLoop (gws : List (gatewayID × GatewayNode)) :
    List gatewayID → List (policyID × Policy) → Except Err (List (policyID × Policy))
  | [], result => .ok result
  | gwID :: rest, result =>
    match lookupA gwID gws with
    | none => .error .nilPanic
    | some gatewayNode =>
      routeInhLoop gws rest
        (copyA (copyA result (gatewayNode.inheritedPolicies.getD []))
          (filterInheritablePolicies gatewayNode.policies))

def routeInherited (gws : List (gatewayID × GatewayNode))
    (nss : List (namespaceID × NamespaceNode)) (r : HTTPRouteNode) :
    Except Err (List (policyID × Policy)) := do
  let namespaceNode ← derefNamespace nss r.ns
  let result := copyA [] (filterInheritablePolicies namespaceNode.policies)
  routeInhLoop gws r.gateways result

def routeInhStep (gws : List (gatewayID × GatewayNode))
    (nss : List (namespaceID × NamespaceNode)) (_hrID : httpRouteID) (r : HTTPRouteNode) :
    Option (Except Err HTTPRouteNode) :=
  match routeInherited gws nss r with
  | .error e => some (.error e)
  | .ok result => some (.ok { r with inheritedPolicies := some result })

def calculateInheritedPoliciesForHTTPRoutes (rm : ResourceModel) : ResourceModel × Option Err :=
  let p := passFold (routeInhStep rm.gateways rm.namespaces) rm.httpRoutes rm.httpRoutes
  ({ rm with httpRoutes := p.1 }, p.2)

def backendInhLoop (hrs : List (httpRouteID × HTTPRouteNode)) :
    List httpRouteID → List (policyID × Policy) → Except Err (List (policyID × Policy))
  | [], result => .ok result
  | hrID :: rest, result =>
    match lookupA hrID hrs with
    | none => .error .nilPanic
    | some httpRouteNode =>
      backendInhLoop hrs rest
        (copyA (copyA result (httpRouteNode.inheritedPolicies.getD []))
          (filterInheritablePolicies httpRouteNode.policies))

def backendInherited (hrs : List (httpRouteID × HTTPRouteNode))
    (nss : List (namespaceID × NamespaceNode)) (b : BackendNode) :
    Except Err (List (policyID × Policy)) := do
  let namespaceNode ← derefNamespace nss b.ns
  let result := copyA [] (filterInheritablePolicies namespaceNode.policies)
  backendInhLoop hrs b.httpRoutes result

def backendInhStep (hrs : List (httpRouteID × HTTPRouteNode))
    (nss : List (namespaceID × NamespaceNode)) (_bID : backendID) (b : BackendNode) :
    Option (Except Err BackendNode) :=
  match backendInherited hrs nss b with
  | .error e => some (.error e)
  | .ok result => some (.ok { b with inheritedPolicies := some result })

def calculateInheritedPoliciesForBackends (rm : ResourceModel) : ResourceModel × Option Err :=
  let p := passFold (backendInhStep rm.httpRoutes rm.namespaces) rm.backends rm.backends
  ({ rm with backends := p.1 }, p.2)

def calculateInheritedPolicies (rm : ResourceModel) : ResourceModel × Option Err :=
  let g := calculateInheritedPoliciesForGateways rm
  match g.2 with
  | some e => (g.1, some e)
  | none =>
    let r := calculateInheritedPoliciesForHTTPRoutes g.1
    match r.2 with
    | some e => (r.1, some e)
    | none => calculateInheritedPoliciesForBackends r.1

/-! ### Lemmas about association-list maps -/

variable {κ ν : Type} [DecidableEq κ]

theorem lookupA_insertA_self (k : κ) (v : ν) : ∀ (l : List (κ × ν)),
    lookupA k (insertA k v l) = some v
  | [] => by simp [insertA, lookupA]
  | (k₀, v₀) :: rest => by
    by_cases h : k₀ = k
    · simp [insertA, h, lookupA]
    · simp only [insertA, if_neg h, lookupA, if_neg h]
      exact lookupA_insertA_self k v rest

theorem lookupA_insertA_ne {k k' : κ} (hne : k' ≠ k) (v : ν) : ∀ (l : List (κ × ν)),
    lookupA k' (insertA k v l) = lookupA k' l
  | [] => by simp [insertA, lookupA, Ne.symm hne]
  | (k₀, v₀) :: rest => by
    by_cases h : k₀ = k
    · subst h
      simp [insertA, lookupA, Ne.symm hne]
    · simp only [insertA, if_neg h, lookupA]
      by_cases h' : k₀ = k'
      · simp [h']
      · simp only [if_neg h']
        exact lookupA_insertA_ne hne v rest

theorem mem_of_lookupA_eq_some {k : κ} {v : ν} :
    ∀ {l : List (κ × ν)}, lookupA k l = some v → (k, v) ∈ l
  | [], h => by simp [lookupA] at h
  | (k₀, v₀) :: rest, h => by
    by_cases he : k₀ = k
    · subst he
      have hv : v₀ = v := by simpa [lookupA] using h
      subst hv
      exact List.mem_cons_self _ _
    · simp only [lookupA, if_neg he] at h
      exact List.mem_cons_of_mem _ (mem_of_lookupA_eq_some h)

theorem lookupA_eq_some_of_mem {k : κ} {v : ν} :
    ∀ {l : List (κ × ν)}, (k, v) ∈ l → (l.map Prod.fst).Nodup → lookupA k l = some v
  | [], hmem, _ => by simp at hmem
  | (k₀, v₀) :: rest, hmem, hnd => by
    simp only [List.map_cons, List.nodup_cons] at hnd
    rcases List.mem_cons.mp hmem with heq | htl
    · cases heq
      simp [lookupA]
    · have hk : k₀ ≠ k := by
        intro hk
        apply hnd.1
        rw [hk]
        exact List.mem_map_of_mem Prod.fst htl
      simp only [lookupA, if_neg hk]
      exact lookupA_eq_some_of_mem htl hnd.2

theorem lookupA_isSome_insertA (k k' : κ) (v : ν) (l : List (κ × ν)) :
    (lookupA k' (insertA k v l)).isSome ↔ k' = k ∨ (lookupA k' l).isSome := by
  by_cases h : k' = k
  · subst h
    simp [lookupA_insertA_self]
  · simp [lookupA_insertA_ne h, h]

/-! ### Generic lemmas about the pass driver -/

theorem passFold_nil (f : κ → ν → Option (Except Err ν)) (acc : List (κ × ν)) :
    passFold f acc [] = (acc, none) := rfl

/-- Keys that never appear in the iteration list are untouched. -/
theorem passFold_lookup_of_not_mem (f : κ → ν → Option (Except Err ν)) {k : κ} :
    ∀ (l acc : List (κ × ν)), k ∉ l.map Prod.fst →
      lookupA k (passFold f acc l).1 = lookupA k acc
  | [], _, _ => rfl
  | (k₀, v₀) :: tl, acc, hk => by
    simp only [List.map_cons, List.mem_cons, not_or] at hk
    have hk1 : k ≠ k₀ := hk.1
    cases hf : f k₀ v₀ with
    | none =>
      simp only [passFold, hf]
      exact passFold_lookup_of_not_mem f tl acc hk.2
    | some r =>
      cases r with
      | error e => simp [passFold, hf]
      | ok v' =>
        simp only [passFold, hf]
        rw [passFold_lookup_of_not_mem f tl (insertA k₀ v' acc) hk.2,
          lookupA_insertA_ne hk1]

/-- A key every one of whose occurrences is skipped by the loop body is
untouched, whether or not the pass aborts. -/
theorem passFold_lookup_of_skip (f : κ → ν → Option (Except Err ν)) {k : κ} :
    ∀ (l acc : List (κ × ν)), (∀ v, (k, v) ∈ l → f k v = none) →
      lookupA k (passFold f acc l).1 = lookupA k acc
  | [], _, _ => rfl
  | (k₀, v₀) :: tl, acc, hk => by
    cases hf : f k₀ v₀ with
    | none =>
      simp only [passFold, hf]
      exact passFold_lookup_of_skip f tl acc (fun v hv => hk v (List.mem_cons_of_mem _ hv))
    | some r =>
      cases r with
      | error e => simp [passFold, hf]
      | ok v' =>
        have hne : k ≠ k₀ := by
          intro h
          subst h
          rw [hk v₀ (List.mem_cons_self _ _)] at hf
          cases hf
        simp only [passFold, hf]
        rw [passFold_lookup_of_skip f tl (insertA k₀ v' acc)
            (fun v hv => hk v (List.mem_cons_of_mem _ hv)),
          lookupA_insertA_ne hne]

/-- On a successful pass over a list with distinct keys, every entry was
either skipped (and is untouched) or had its new value stored. -/
theorem passFold_success_lookup (f : κ → ν → Option (Except Err ν)) {k : κ} {v : ν} :
    ∀ (l acc : List (κ × ν)), (passFold f acc l).2 = none → (l.map Prod.fst).Nodup →
      (k, v) ∈ l →
      (f k v = none → lookupA k (passFold f acc l).1 = lookupA k acc) ∧
      (∀ r, f k v = some r →
        ∃ v', r = Except.ok v' ∧ lookupA k (passFold f acc l).1 = some v')
  | [], _, _, _, hmem => by simp at hmem
  | (k₀, v₀) :: tl, acc, hok, hnd, hmem => by
    simp only [List.map_cons, List.nodup_cons] at hnd
    rcases List.mem_cons.mp hmem with heq | htl
    · cases heq
      have hknotl : k ∉ tl.map Prod.fst := hnd.1
      cases hf : f k v with
      | none =>
        refine ⟨fun _ => ?_, fun r hr => Option.noConfusion hr⟩
        simp only [passFold, hf]
        exact passFold_lookup_of_not_mem f tl acc hknotl
      | some r =>
        cases r with
        | error e =>
          simp [passFold, hf] at hok
        | ok v' =>
          refine ⟨fun h => Option.noConfusion h, fun r hr => ?_⟩
          cases hr
          refine ⟨v', rfl, ?_⟩
          simp only [passFold, hf]
          rw [passFold_lookup_of_not_mem f tl _ hknotl, lookupA_insertA_self]
    · have hne : k ≠ k₀ := by
        intro h
        apply hnd.1
        rw [← h]
        exact List.mem_map_of_mem Prod.fst htl
      cases hf : f k₀ v₀ with
      | none =>
        simp only [passFold, hf] at hok ⊢
        exact passFold_success_lookup f tl acc hok hnd.2 htl
      | some r =>
        cases r with
        | error e => simp [passFold, hf] at hok
        | ok v' =>
          simp only [passFold, hf] at hok ⊢
          have hrec := passFold_success_lookup f tl (insertA k₀ v' acc) hok hnd.2 htl
          refine ⟨fun h => ?_, hrec.2⟩
          rw [hrec.1 h, lookupA_insertA_ne hne]

/-- A pass that aborts with an error stopped at the first failing entry:
the iteration list splits into a prefix the pass completed (with the
result map exactly as after that prefix), the failing entry, and an
unprocessed suffix. -/
theorem passFold_error_split (f : κ → ν → Option (Except Err ν)) {e : Err} :
    ∀ (l acc : List (κ × ν)), (passFold f acc l).2 = some e →
      ∃ front k v back, l = front ++ (k, v) :: back ∧ f k v = some (Except.error e) ∧
        (passFold f acc front).2 = none ∧
        (passFold f acc l).1 = (passFold f acc front).1 := by
  intro l
  induction l with
  | nil => intro acc h; simp [passFold] at h
  | cons hd tl ih =>
    intro acc herr
    obtain ⟨hd1, hd2⟩ := hd
    cases hf : f hd1 hd2 with
    | none =>
      simp only [passFold, hf] at herr
      obtain ⟨front, k, v, back, hsplit, hfkv, hfront, hacc⟩ := ih acc herr
      exact ⟨(hd1, hd2) :: front, k, v, back, by simp [hsplit], hfkv,
        by simp [passFold, hf]; exact hfront, by simp [passFold, hf]; exact hacc⟩
    | some r =>
      cases r with
      | error e' =>
        simp only [passFold, hf, Option.some.injEq] at herr
        subst herr
        exact ⟨[], hd1, hd2, tl, rfl, hf, rfl, by simp [passFold, hf]⟩
      | ok v' =>
        simp only [passFold, hf] at herr
        obtain ⟨front, k, v, back, hsplit, hfkv, hfront, hacc⟩ := ih (insertA hd1 v' acc) herr
        exact ⟨(hd1, hd2) :: front, k, v, back, by simp [hsplit], hfkv,
          by simp [passFold, hf]; exact hfront, by simp [passFold, hf]; exact hacc⟩

/-- Every binding in the result of a pass is either an untouched binding of
the input map or the stored result of the loop body on some entry. -/
theorem passFold_lookup_some_inv (f : κ → ν → Option (Except Err ν)) {k : κ} {w : ν} :
    ∀ (l acc : List (κ × ν)), lookupA k (passFold f acc l).1 = some w →
      lookupA k acc = some w ∨ ∃ v, (k, v) ∈ l ∧ f k v = some (Except.ok w) := by
  intro l
  induction l with
  | nil => intro acc h; exact Or.inl h
  | cons hd tl ih =>
    intro acc h
    obtain ⟨hd1, hd2⟩ := hd
    cases hf : f hd1 hd2 with
    | none =>
      simp only [passFold, hf] at h
      rcases ih acc h with h' | ⟨v, hv, hfv⟩
      · exact Or.inl h'
      · exact Or.inr ⟨v, List.mem_cons_of_mem _ hv, hfv⟩
    | some r =>
      cases r with
      | error e =>
        simp only [passFold, hf] at h
        exact Or.inl h
      | ok v' =>
        simp only [passFold, hf] at h
        rcases ih (insertA hd1 v' acc) h with h' | ⟨v, hv, hfv⟩
        · by_cases hk : k = hd1
          · subst hk
            rw [lookupA_insertA_self] at h'
            cases h'
            exact Or.inr ⟨hd2, List.mem_cons_self _ _, hf⟩
          · rw [lookupA_insertA_ne hk] at h'
            exact Or.inl h'
        · exact Or.inr ⟨v, List.mem_cons_of_mem _ hv, hfv⟩

theorem mem_insertA_self (k : κ) (v : ν) : ∀ (l : List (κ × ν)), (k, v) ∈ insertA k v l
  | [] => List.mem_singleton_self _
  | (k₀, v₀) :: rest => by
    by_cases h : k₀ = k
    · simp [insertA, h]
    · simp only [insertA, if_neg h]
      exact List.mem_cons_of_mem _ (mem_insertA_self k v rest)

theorem mem_insertA {e : κ × ν} {k : κ} {v : ν} :
    ∀ {l : List (κ × ν)}, e ∈ insertA k v l → e = (k, v) ∨ e ∈ l
  | [], h => by
    simp only [insertA, List.mem_singleton] at h
    exact Or.inl h
  | (k₀, v₀) :: rest, h => by
    by_cases hk : k₀ = k
    · subst hk
      simp only [insertA, if_pos rfl] at h
      rcases List.mem_cons.mp h with he | ht
      · exact Or.inl he
      · exact Or.inr (List.mem_cons_of_mem _ ht)
    · simp only [insertA, if_neg hk] at h
      rcases List.mem_cons.mp h with he | ht
      · exact Or.inr (he ▸ List.mem_cons_self _ _)
      · rcases mem_insertA ht with h' | h'
        · exact Or.inl h'
        · exact Or.inr (List.mem_cons_of_mem _ h')

theorem mem_insertA_of_ne {e : κ × ν} {k : κ} (v : ν) :
    ∀ {l : List (κ × ν)}, e ∈ l → e.1 ≠ k → e ∈ insertA k v l
  | [], he, _ => by simp at he
  | (k₀, v₀) :: rest, he, hne => by
    by_cases hk : k₀ = k
    · subst hk
      simp only [insertA, if_pos rfl]
      rcases List.mem_cons.mp he with h | h
      · exact absurd (by rw [h]) hne
      · exact List.mem_cons_of_mem _ h
    · simp only [insertA, if_neg hk]
      rcases List.mem_cons.mp he with h | h
      · exact h ▸ List.mem_cons_self _ _
      · exact List.mem_cons_of_mem _ (mem_insertA_of_ne v h hne)

theorem keys_insertA_of_isSome {k : κ} (v : ν) :
    ∀ {l : List (κ × ν)}, (lookupA k l).isSome →
      (insertA k v l).map Prod.fst = l.map Prod.fst
  | [], h => by simp [lookupA] at h
  | (k₀, v₀) :: rest, h => by
    by_cases hk : k₀ = k
    · subst hk
      simp [insertA]
    · simp only [lookupA, if_neg hk] at h
      simp only [insertA, if_neg hk, List.map_cons, List.cons.injEq, true_and]
      exact keys_insertA_of_isSome v h

theorem mem_insertRef_self {α : Type} [DecidableEq α] (a : α) (l : List α) :
    a ∈ insertRef a l := by
  unfold insertRef
  by_cases h : a ∈ l
  · simp [h]
  · simp [h]

theorem mem_insertRef_of_mem {α : Type} [DecidableEq α] {a b : α} {l : List α}
    (h : b ∈ l) : b ∈ insertRef a l := by
  unfold insertRef
  by_cases ha : a ∈ l
  · simpa [ha]
  · simp [ha, h]

theorem mem_insertRef {α : Type} [DecidableEq α] {a b : α} {l : List α}
    (h : b ∈ insertRef a l) : b = a ∨ b ∈ l := by
  unfold insertRef at h
  by_cases ha : a ∈ l
  · simp only [if_pos ha] at h
    exact Or.inr h
  · simp only [if_neg ha, List.mem_append, List.mem_singleton] at h
    exact h.symm

theorem lookupA_eq_none_iff (k : κ) : ∀ (l : List (κ × ν)),
    lookupA k l = none ↔ k ∉ l.map Prod.fst
  | [] => by simp [lookupA]
  | (k₀, v₀) :: rest => by
    by_cases h : k₀ = k
    · subst h
      simp [lookupA]
    · simp only [lookupA, if_neg h, List.map_cons, List.mem_cons, not_or]
      rw [lookupA_eq_none_iff k rest]
      simp [Ne.symm h]

theorem insertA_of_lookupA_none {k : κ} (v : ν) : ∀ {l : List (κ × ν)},
    lookupA k l = none → insertA k v l = l ++ [(k, v)]
  | [], _ => rfl
  | (k₀, v₀) :: rest, h => by
    have hk : ¬k₀ = k := by
      intro he
      subst he
      simp [lookupA] at h
    simp only [lookupA, if_neg hk] at h
    simp only [insertA, if_neg hk, List.cons_append, List.cons.injEq, true_and]
    exact insertA_of_lookupA_none v h

/-- A pass never drops a key from the map. -/
theorem passFold_lookup_isSome (f : κ → ν → Option (Except Err ν)) {k : κ} :
    ∀ (l acc : List (κ × ν)), (lookupA k acc).isSome →
      (lookupA k (passFold f acc l).1).isSome := by
  intro l
  induction l with
  | nil => intro acc h; exact h
  | cons hd tl ih =>
    intro acc h
    obtain ⟨hd1, hd2⟩ := hd
    cases hf : f hd1 hd2 with
    | none => simpa [passFold, hf] using ih acc h
    | some r =>
      cases r with
      | error e => simpa [passFold, hf] using h
      | ok v' =>
        simp only [passFold, hf]
        exact ih (insertA hd1 v' acc) ((lookupA_isSome_insertA hd1 k v' acc).mpr (Or.inr h))

/-! ## Claim C8: idempotent node insertion -/

theorem addGatewayClasses_isSome {k : gatewayClassID} :
    ∀ (cs : List GatewayClass) (rm : ResourceModel),
      (lookupA k rm.gatewayClasses).isSome →
      (lookupA k (addGatewayClasses rm cs).gatewayClasses).isSome
  | [], _, h => h
  | c :: rest, rm, h => by
    cases hl : lookupA (NewGatewayClassNode c).id rm.gatewayClasses with
    | some n =>
      simp only [addGatewayClasses, hl]
      exact addGatewayClasses_isSome rest rm h
    | none =>
      simp only [addGatewayClasses, hl]
      exact addGatewayClasses_isSome rest _
        ((lookupA_isSome_insertA _ _ _ _).mpr (Or.inr h))

theorem addGatewayClasses_nodupKeys :
    ∀ (cs : List GatewayClass) (rm : ResourceModel),
      (rm.gatewayClasses.map Prod.fst).Nodup →
      ((addGatewayClasses rm cs).gatewayClasses.map Prod.fst).Nodup
  | [], _, h => h
  | c :: rest, rm, h => by
    cases hl : lookupA (NewGatewayClassNode c).id rm.gatewayClasses with
    | some n =>
      simp only [addGatewayClasses, hl]
      exact addGatewayClasses_nodupKeys rest rm h
    | none =>
      simp only [addGatewayClasses, hl]
      apply addGatewayClasses_nodupKeys rest
      simp only
      rw [insertA_of_lookupA_none _ hl, List.map_append]
      refine List.Nodup.append h (List.nodup_singleton _) ?_
      intro a ha hb
      simp only [List.map_cons, List.map_nil, List.mem_singleton] at hb
      subst hb
      exact (lookupA_eq_none_iff _ _).mp hl ha

theorem addGatewayClasses_mem_isSome :
    ∀ (cs : List GatewayClass) (rm : ResourceModel) (c : GatewayClass), c ∈ cs →
      (lookupA (NewGatewayClassNode c).id (addGatewayClasses rm cs).gatewayClasses).isSome
  | [], _, _, hmem => by simp at hmem
  | c' :: rest, rm, c, hmem => by
    cases hl : lookupA (NewGatewayClassNode c').id rm.gatewayClasses with
    | some n =>
      simp only [addGatewayClasses, hl]
      rcases List.mem_cons.mp hmem with he | ht
      · subst he
        exact addGatewayClasses_isSome rest rm (by rw [hl]; rfl)
      · exact addGatewayClasses_mem_isSome rest rm c ht
    | none =>
      simp only [addGatewayClasses, hl]
      rcases List.mem_cons.mp hmem with he | ht
      · subst he
        exact addGatewayClasses_isSome rest _ (by simp [lookupA_insertA_self])
      · exact addGatewayClasses_mem_isSome rest _ c ht

theorem addGateways_isSome {k : gatewayID} :
    ∀ (gs : List Gateway) (rm : ResourceModel),
      (lookupA k rm.gateways).isSome →
      (lookupA k (addGateways rm gs).gateways).isSome
  | [], _, h => h
  | g :: rest, rm, h => by
    cases hl : lookupA (NewGatewayNode g).id rm.gateways with
    | some n =>
      simp only [addGateways, hl]
      exact addGateways_isSome rest rm h
    | none =>
      simp only [addGateways, hl]
      exact addGateways_isSome rest _ ((lookupA_isSome_insertA _ _ _ _).mpr (Or.inr h))

theorem addGateways_nodupKeys :
    ∀ (gs : List Gateway) (rm : ResourceModel),
      (rm.gateways.map Prod.fst).Nodup →
      ((addGateways rm gs).gateways.map Prod.fst).Nodup
  | [], _, h => h
  | g :: rest, rm, h => by
    cases hl : lookupA (NewGatewayNode g).id rm.gateways with
    | some n =>
      simp only [addGateways, hl]
      exact addGateways_nodupKeys rest rm h
    | none =>
      simp only [addGateways, hl]
      apply addGateways_nodupKeys rest
      simp only
      rw [insertA_of_lookupA_none _ hl, List.map_append]
      refine List.Nodup.append h (List.nodup_singleton _) ?_
      intro a ha hb
      simp only [List.map_cons, List.map_nil, List.mem_singleton] at hb
      subst hb
      exact (lookupA_eq_none_iff _ _).mp hl ha

theorem addGateways_mem_isSome :
    ∀ (gs : List Gateway) (rm : ResourceModel) (g : Gateway), g ∈ gs →
      (lookupA (NewGatewayNode g).id (addGateways rm gs).gateways).isSome
  | [], _, _, hmem => by simp at hmem
  | g' :: rest, rm, g, hmem => by
    cases hl : lookupA (NewGatewayNode g').id rm.gateways with
    | some n =>
      simp only [addGateways, hl]
      rcases List.mem_cons.mp hmem with he | ht
      · subst he
        exact addGateways_isSome rest rm (by rw [hl]; rfl)
      · exact addGateways_mem_isSome rest rm g ht
    | none =>
      simp only [addGateways, hl]
      rcases List.mem_cons.mp hmem with he | ht
      · subst he
        exact addGateways_isSome rest _ (by simp [lookupA_insertA_self])
      · exact addGateways_mem_isSome rest _ g ht

/-- Claim C8: for every resource kind, inserting the same resource twice
(within one batch or across batches) yields exactly one node: the node
identity is a pure function of the resource's natural key, insertion
leaves the kind's mapping completely unchanged when a node with that
identity is already present, re-insertion collapses to a single
insertion, distinct keys stay distinct (so there is never a second node
with the same identity), and an inserted resource's identity is present
afterwards.  Stated for the two kinds the claim cites (GatewayClass and
Gateway). -/
theorem C8_idempotent_insertion :
    (∀ (rm : ResourceModel) (c : GatewayClass),
        (lookupA (NewGatewayClassNode c).id rm.gatewayClasses).isSome →
        addGatewayClasses rm [c] = rm) ∧
    (∀ (rm : ResourceModel) (c : GatewayClass),
        addGatewayClasses rm [c, c] = addGatewayClasses rm [c]) ∧
    (∀ (rm : ResourceModel) (c : GatewayClass),
        addGatewayClasses (addGatewayClasses rm [c]) [c] = addGatewayClasses rm [c]) ∧
    (∀ (rm : ResourceModel) (cs : List GatewayClass),
        (rm.gatewayClasses.map Prod.fst).Nodup →
        ((addGatewayClasses rm cs).gatewayClasses.map Prod.fst).Nodup) ∧
    (∀ (rm : ResourceModel) (cs : List GatewayClass) (c : GatewayClass), c ∈ cs →
        (lookupA (NewGatewayClassNode c).id (addGatewayClasses rm cs).gatewayClasses).isSome) ∧
    (∀ (rm : ResourceModel) (g : Gateway),
        (lookupA (NewGatewayNode g).id rm.gateways).isSome →
        addGateways rm [g] = rm) ∧
    (∀ (rm : ResourceModel) (g : Gateway),
        addGateways rm [g, g] = addGateways rm [g]) ∧
    (∀ (rm : ResourceModel) (g : Gateway),
        addGateways (addGateways rm [g]) [g] = addGateways rm [g]) ∧
    (∀ (rm : ResourceModel) (gs : List Gateway),
        (rm.gateways.map Prod.fst).Nodup →
        ((addGateways rm gs).gateways.map Prod.fst).Nodup) ∧
    (∀ (rm : ResourceModel) (gs : List Gateway) (g : Gateway), g ∈ gs →
        (lookupA (NewGatewayNode g).id (addGateways rm gs).gateways).isSome) := by
  refine ⟨?_, ?_, ?_, fun rm cs h => addGatewayClasses_nodupKeys cs rm h,
    fun rm cs c h => addGatewayClasses_mem_isSome cs rm c h,
    ?_, ?_, ?_, fun rm gs h => addGateways_nodupKeys gs rm h,
    fun rm gs g h => addGateways_mem_isSome gs rm g h⟩
  · intro rm c h
    obtain ⟨n, hn⟩ := Option.isSome_iff_exists.mp h
    simp [addGatewayClasses, hn]
  · intro rm c
    cases hl : lookupA (NewGatewayClassNode c).id rm.gatewayClasses with
    | some n => simp [addGatewayClasses, hl]
    | none => simp [addGatewayClasses, hl, lookupA_insertA_self]
  · intro rm c
    cases hl : lookupA (NewGatewayClassNode c).id rm.gatewayClasses with
    | some n => simp [addGatewayClasses, hl]
    | none => simp [addGatewayClasses, hl, lookupA_insertA_self]
  · intro rm g h
    obtain ⟨n, hn⟩ := Option.isSome_iff_exists.mp h
    simp [addGateways, hn]
  · intro rm g
    cases hl : lookupA (NewGatewayNode g).id rm.gateways with
    | some n => simp [addGateways, hl]
    | none => simp [addGateways, hl, lookupA_insertA_self]
  · intro rm g
    cases hl : lookupA (NewGatewayNode g).id rm.gateways with
    | some n => simp [addGateways, hl]
    | none => simp [addGateways, hl, lookupA_insertA_self]

def egClass : GatewayClass := ⟨"example-class"⟩

def egGateway : Gateway := ⟨"default", "example-gateway"⟩

def rmWithClass : ResourceModel := addGatewayClasses ResourceModel.empty [egClass]

def rmWithGateway : ResourceModel := addGateways ResourceModel.empty [egGateway]

/-- Witness for C8 at a concrete class and gateway. -/
theorem C8_idempotent_insertion_witness :
    ((lookupA (NewGatewayClassNode egClass).id rmWithClass.gatewayClasses).isSome ∧
        addGatewayClasses rmWithClass [egClass] = rmWithClass) ∧
    ((rmWithClass.gatewayClasses.map Prod.fst).Nodup ∧
        ((addGatewayClasses rmWithClass [egClass]).gatewayClasses.map Prod.fst).Nodup) ∧
    (egClass ∈ [egClass] ∧
        (lookupA (NewGatewayClassNode egClass).id
          (addGatewayClasses rmWithClass [egClass]).gatewayClasses).isSome) ∧
    ((lookupA (NewGatewayNode egGateway).id rmWithGateway.gateways).isSome ∧
        addGateways rmWithGateway [egGateway] = rmWithGateway) ∧
    ((rmWithGateway.gateways.map Prod.fst).Nodup ∧
        ((addGateways rmWithGateway [egGateway]).gateways.map Prod.fst).Nodup) ∧
    (egGateway ∈ [egGateway] ∧
        (lookupA (NewGatewayNode egGateway).id
          (addGateways rmWithGateway [egGateway]).gateways).isSome) :=
  ⟨⟨by decide, C8_idempotent_insertion.1 rmWithClass egClass (by decide)⟩,
    ⟨by decide, C8_idempotent_insertion.2.2.2.1 rmWithClass [egClass] (by decide)⟩,
    ⟨by decide, C8_idempotent_insertion.2.2.2.2.1 rmWithClass [egClass] egClass (by decide)⟩,
    ⟨by decide, C8_idempotent_insertion.2.2.2.2.2.1 rmWithGateway egGateway (by decide)⟩,
    ⟨by decide, C8_idempotent_insertion.2.2.2.2.2.2.2.2.1 rmWithGateway [egGateway] (by decide)⟩,
    ⟨by decide, C8_idempotent_insertion.2.2.2.2.2.2.2.2.2 rmWithGateway [egGateway] egGateway
      (by decide)⟩⟩

/-! ## Claim C5: deterministic ordering of merge candidates -/

/-- The total order the claim describes: merge-kind identifier first, then
namespace, then name, each compared lexically. -/
def specTripleLE (p q : Policy) : Prop :=
  p.crdID.data < q.crdID.data ∨
    (p.crdID = q.crdID ∧
      (p.ns.data < q.ns.data ∨ (p.ns = q.ns ∧ p.name.data ≤ q.name.data)))

instance : DecidableRel specTripleLE := fun p q =>
  inferInstanceAs (Decidable (p.crdID.data < q.crdID.data ∨ _))

def policyLt (p q : Policy) : Prop := policySortKey p < policySortKey q

instance : IsTotal Policy policyLe :=
  ⟨fun p q => le_total (policySortKey p) (policySortKey q)⟩

instance : IsTrans Policy policyLe :=
  ⟨fun _ _ _ h₁ h₂ => le_trans h₁ h₂⟩

theorem convertPoliciesMapToSlice_sorted (m : List (policyID × Policy)) :
    List.Sorted policyLe (convertPoliciesMapToSlice m) :=
  List.sorted_insertionSort policyLe (m.map Prod.snd)

theorem convertPoliciesMapToSlice_perm (m : List (policyID × Policy)) :
    (convertPoliciesMapToSlice m).Perm (m.map Prod.snd) :=
  List.perm_insertionSort policyLe (m.map Prod.snd)

theorem convertPoliciesMapToSlice_deterministic {m₁ m₂ : List (policyID × Policy)}
    (hperm : (m₁.map Prod.snd).Perm (m₂.map Prod.snd))
    (hnd : ((m₁.map Prod.snd).map policySortKey).Nodup) :
    convertPoliciesMapToSlice m₁ = convertPoliciesMapToSlice m₂ := by
  haveI : IsAntisymm Policy policyLt :=
    ⟨fun a b h₁ h₂ => (lt_asymm h₁ h₂).elim⟩
  have hp : (convertPoliciesMapToSlice m₁).Perm (convertPoliciesMapToSlice m₂) :=
    (convertPoliciesMapToSlice_perm m₁).trans
      (hperm.trans (convertPoliciesMapToSlice_perm m₂).symm)
  have hstrict : ∀ (m : List (policyID × Policy)),
      ((m.map Prod.snd).map policySortKey).Nodup →
      List.Sorted policyLt (convertPoliciesMapToSlice m) := by
    intro m hnd'
    have hs := convertPoliciesMapToSlice_sorted m
    have hndkeys : ((convertPoliciesMapToSlice m).map policySortKey).Nodup :=
      (List.Perm.map policySortKey (convertPoliciesMapToSlice_perm m)).nodup_iff.mpr hnd'
    have hne : (convertPoliciesMapToSlice m).Pairwise
        (fun a b => policySortKey a ≠ policySortKey b) :=
      (List.pairwise_map).mp hndkeys
    exact (hs.and hne).imp (fun h => lt_of_le_of_ne h.1 h.2)
  have hnd₂ : ((m₂.map Prod.snd).map policySortKey).Nodup :=
    ((hperm.map policySortKey).nodup_iff).mp hnd
  exact List.eq_of_perm_of_sorted hp (hstrict m₁ hnd) (hstrict m₂ hnd₂)

def polDash : Policy :=
  { crdID := "k", ns := "team-a", name := "x", isInherited := false,
    targetGroup := "", targetKind := "", targetNs := "", targetName := "" }

def polPlain : Policy :=
  { crdID := "k", ns := "team", name := "y", isInherited := false,
    targetGroup := "", targetKind := "", targetNs := "", targetName := "" }

/-- Counterexample to claim C5 as stated: the pass sorts candidates by the
concatenated string `crdID ++ "/" ++ namespace ++ "/" ++ name`, which is
not the componentwise (merge-kind identifier, then namespace, then name)
order.  With equal merge-kind identifiers and namespaces `team-a` and
`team`, the code puts `team-a` first (because `-` sorts below `/`), while
the componentwise order requires `team` first, so the produced slice is
not sorted by the claimed order. -/
theorem C5_sorted_candidates_counterexample :
    convertPoliciesMapToSlice [(polDash.id, polDash), (polPlain.id, polPlain)] =
      [polDash, polPlain] ∧
    ¬ List.Sorted specTripleLE [polDash, polPlain] ∧
    specTripleLE polPlain polDash ∧ polDash ≠ polPlain := by
  refine ⟨by decide, ?_, by decide, by decide⟩
  intro hs
  have h := List.rel_of_sorted_cons hs polPlain (List.mem_singleton_self _)
  revert h
  decide

/-- Claim C5 (amended): before merging, the candidates of one hierarchy
level are sorted ascending by the concatenated string key
`crdID ++ "/" ++ namespace ++ "/" ++ name` (not by the componentwise
triple order); the output is a permutation of the mapping's policies, and
whenever the concatenated keys are distinct, any two iteration orders of
the same policy mapping produce the identical candidate sequence, so
every resolution pass hands the merge capability identical candidate
sequences run over run. -/
theorem C5_sorted_candidates_amended :
    (∀ m : List (policyID × Policy), List.Sorted policyLe (convertPoliciesMapToSlice m)) ∧
    (∀ m : List (policyID × Policy), (convertPoliciesMapToSlice m).Perm (m.map Prod.snd)) ∧
    (∀ m₁ m₂ : List (policyID × Policy),
        (m₁.map Prod.snd).Perm (m₂.map Prod.snd) →
        ((m₁.map Prod.snd).map policySortKey).Nodup →
        convertPoliciesMapToSlice m₁ = convertPoliciesMapToSlice m₂) :=
  ⟨convertPoliciesMapToSlice_sorted, convertPoliciesMapToSlice_perm,
    fun _ _ hperm hnd => convertPoliciesMapToSlice_deterministic hperm hnd⟩

/-- Witness for the amended C5: two iteration orders of a two-policy
mapping produce the same candidate sequence. -/
theorem C5_sorted_candidates_amended_witness :
    ([(polDash.id, polDash), (polPlain.id, polPlain)].map Prod.snd).Perm
      ([(polPlain.id, polPlain), (polDash.id, polDash)].map Prod.snd) ∧
    (([(polDash.id, polDash), (polPlain.id, polPlain)].map Prod.snd).map policySortKey).Nodup ∧
    convertPoliciesMapToSlice [(polDash.id, polDash), (polPlain.id, polPlain)] =
      convertPoliciesMapToSlice [(polPlain.id, polPlain), (polDash.id, polDash)] :=
  ⟨by decide, by decide,
    C5_sorted_candidates_amended.2.2 _ _ (by decide) (by decide)⟩

/-! ## Claim C7: connect operations and bidirectional cross-references -/

theorem lookupA_of_mem_pair {κ' ν' : Type} [DecidableEq κ'] {l : List (κ' × ν')}
    {e : κ' × ν'} (he : e ∈ l) (hnd : (l.map Prod.fst).Nodup) :
    lookupA e.1 l = some e.2 := by
  obtain ⟨k, v⟩ := e
  exact lookupA_eq_some_of_mem he hnd

/-- All per-kind mappings have pairwise distinct keys (the graph never
contains two live nodes with the same identifier and kind). -/
def nodupKeys (rm : ResourceModel) : Prop :=
  (rm.gatewayClasses.map Prod.fst).Nodup ∧ (rm.namespaces.map Prod.fst).Nodup ∧
    (rm.gateways.map Prod.fst).Nodup ∧ (rm.httpRoutes.map Prod.fst).Nodup ∧
    (rm.backends.map Prod.fst).Nodup ∧ (rm.policies.map Prod.fst).Nodup

instance : Decidable (nodupKeys rm) := inferInstanceAs (Decidable (_ ∧ _))

/-- Every stored child-to-parent reference for the two cited edge types has
a matching entry in the parent's reverse index. -/
def ForwardBacked (rm : ResourceModel) : Prop :=
  (∀ e ∈ rm.gateways, ∀ gcID, e.2.gatewayClass = some gcID →
      ∃ ce ∈ rm.gatewayClasses, ce.1 = gcID ∧ e.1 ∈ ce.2.gateways) ∧
  (∀ re ∈ rm.httpRoutes, ∀ gwID ∈ re.2.gateways,
      ∃ ge ∈ rm.gateways, ge.1 = gwID ∧ re.1 ∈ ge.2.httpRoutes) ∧
  (∀ ge ∈ rm.gateways, ∀ hrID ∈ ge.2.httpRoutes,
      ∃ re ∈ rm.httpRoutes, re.1 = hrID ∧ ge.1 ∈ re.2.gateways)

instance : Decidable (ForwardBacked rm) := inferInstanceAs (Decidable (_ ∧ _))

/-- The claim's invariant: every stored cross-reference of the two cited
edge types is bidirectional — in addition to `ForwardBacked`, every entry
of a GatewayClass's reverse index points to a gateway whose forward
reference names that class. -/
def BidirectionalRefs (rm : ResourceModel) : Prop :=
  ForwardBacked rm ∧
    ∀ ce ∈ rm.gatewayClasses, ∀ gwID ∈ ce.2.gateways,
      ∃ ge ∈ rm.gateways, ge.1 = gwID ∧ ge.2.gatewayClass = some ce.1

instance : Decidable (BidirectionalRefs rm) := inferInstanceAs (Decidable (_ ∧ _))

theorem connectGatewayWithGatewayClass_nodupKeys (rm : ResourceModel)
    (gwID : gatewayID) (gcID : gatewayClassID) (hnd : nodupKeys rm) :
    nodupKeys (connectGatewayWithGatewayClass rm gwID gcID).1 := by
  cases hgw : lookupA gwID rm.gateways with
  | none => simpa [connectGatewayWithGatewayClass, hgw] using hnd
  | some gn =>
    cases hgc : lookupA gcID rm.gatewayClasses with
    | none => simpa [connectGatewayWithGatewayClass, hgw, hgc] using hnd
    | some cn =>
      obtain ⟨h₁, h₂, h₃, h₄, h₅, h₆⟩ := hnd
      simp only [connectGatewayWithGatewayClass, hgw, hgc]
      refine ⟨?_, h₂, ?_, h₄, h₅, h₆⟩
      · rw [keys_insertA_of_isSome _ (by rw [hgc]; rfl)]
        exact h₁
      · rw [keys_insertA_of_isSome _ (by rw [hgw]; rfl)]
        exact h₃

theorem connectHTTPRouteWithGateway_nodupKeys (rm : ResourceModel)
    (hrID : httpRouteID) (gwID : gatewayID) (hnd : nodupKeys rm) :
    nodupKeys (connectHTTPRouteWithGateway rm hrID gwID).1 := by
  cases hhr : lookupA hrID rm.httpRoutes with
  | none => simpa [connectHTTPRouteWithGateway, hhr] using hnd
  | some rn =>
    cases hgw : lookupA gwID rm.gateways with
    | none => simpa [connectHTTPRouteWithGateway, hhr, hgw] using hnd
    | some gn =>
      obtain ⟨h₁, h₂, h₃, h₄, h₅, h₆⟩ := hnd
      simp only [connectHTTPRouteWithGateway, hhr, hgw]
      refine ⟨h₁, h₂, ?_, ?_, h₅, h₆⟩
      · rw [keys_insertA_of_isSome _ (by rw [hgw]; rfl)]
        exact h₃
      · rw [keys_insertA_of_isSome _ (by rw [hhr]; rfl)]
        exact h₄

theorem connectGatewayWithGatewayClass_forwardBacked (rm : ResourceModel)
    (gwID : gatewayID) (gcID : gatewayClassID) (hnd : nodupKeys rm)
    (hF : ForwardBacked rm) :
    ForwardBacked (connectGatewayWithGatewayClass rm gwID gcID).1 := by
  cases hgw : lookupA gwID rm.gateways with
  | none => simpa [connectGatewayWithGatewayClass, hgw] using hF
  | some gn =>
    cases hgc : lookupA gcID rm.gatewayClasses with
    | none => simpa [connectGatewayWithGatewayClass, hgw, hgc] using hF
    | some cn =>
      obtain ⟨hF₁, hF₂, hF₃⟩ := hF
      simp only [connectGatewayWithGatewayClass, hgw, hgc]
      refine ⟨?_, ?_, ?_⟩
      · intro e he gcID₂ hcls
        rcases mem_insertA he with he' | he'
        · subst he'
          simp only [Option.some.injEq] at hcls
          subst hcls
          exact ⟨(gcID, { cn with gateways := insertRef gwID cn.gateways }),
            mem_insertA_self _ _ _, rfl, mem_insertRef_self _ _⟩
        · obtain ⟨ce, hce, hce1, hmem⟩ := hF₁ e he' gcID₂ hcls
          by_cases hq : gcID₂ = gcID
          · subst hq
            have : lookupA ce.1 rm.gatewayClasses = some ce.2 :=
              lookupA_of_mem_pair hce hnd.1
            rw [hce1, hgc] at this
            have hcn : ce.2 = cn := by injection this with h; exact h.symm
            refine ⟨(gcID₂, { cn with gateways := insertRef gwID cn.gateways }),
              mem_insertA_self _ _ _, rfl, ?_⟩
            exact mem_insertRef_of_mem (hcn ▸ hmem)
          · exact ⟨ce, mem_insertA_of_ne _ hce (by rw [hce1]; exact hq), hce1, hmem⟩
      · intro re hre gwID₂ hgw₂
        obtain ⟨ge, hge, hge1, hmem⟩ := hF₂ re hre gwID₂ hgw₂
        by_cases hq : gwID₂ = gwID
        · subst hq
          have : lookupA ge.1 rm.gateways = some ge.2 :=
            lookupA_of_mem_pair hge hnd.2.2.1
          rw [hge1, hgw] at this
          have hgn : ge.2 = gn := by injection this with h; exact h.symm
          exact ⟨(gwID₂, { gn with gatewayClass := some gcID }),
            mem_insertA_self _ _ _, rfl, hgn ▸ hmem⟩
        · exact ⟨ge, mem_insertA_of_ne _ hge (by rw [hge1]; exact hq), hge1, hmem⟩
      · intro ge hge hrID₂ hhr₂
        rcases mem_insertA hge with hge' | hge'
        · subst hge'
          obtain ⟨re, hre, hre1, hmem⟩ :=
            hF₃ (gwID, gn) (mem_of_lookupA_eq_some hgw) hrID₂ hhr₂
          exact ⟨re, hre, hre1, hmem⟩
        · exact hF₃ ge hge' hrID₂ hhr₂

theorem connectHTTPRouteWithGateway_forwardBacked (rm : ResourceModel)
    (hrID : httpRouteID) (gwID : gatewayID) (hnd : nodupKeys rm)
    (hF : ForwardBacked rm) :
    ForwardBacked (connectHTTPRouteWithGateway rm hrID gwID).1 := by
  cases hhr : lookupA hrID rm.httpRoutes with
  | none => simpa [connectHTTPRouteWithGateway, hhr] using hF
  | some rn =>
    cases hgw : lookupA gwID rm.gateways with
    | none => simpa [connectHTTPRouteWithGateway, hhr, hgw] using hF
    | some gn =>
      obtain ⟨hF₁, hF₂, hF₃⟩ := hF
      simp only [connectHTTPRouteWithGateway, hhr, hgw]
      refine ⟨?_, ?_, ?_⟩
      · intro e he gcID₂ hcls
        rcases mem_insertA he with he' | he'
        · subst he'
          obtain ⟨ce, hce, hce1, hmem⟩ :=
            hF₁ (gwID, gn) (mem_of_lookupA_eq_some hgw) gcID₂ hcls
          exact ⟨ce, hce, hce1, hmem⟩
        · exact hF₁ e he' gcID₂ hcls
      · intro re hre gwID₂ hgw₂
        rcases mem_insertA hre with hre' | hre'
        · subst hre'
          rcases mem_insertRef hgw₂ with hq | hq
          · subst hq
            exact ⟨(gwID₂, { gn with httpRoutes := insertRef hrID gn.httpRoutes }),
              mem_insertA_self _ _ _, rfl, mem_insertRef_self _ _⟩
          · obtain ⟨ge, hge, hge1, hmem⟩ :=
              hF₂ (hrID, rn) (mem_of_lookupA_eq_some hhr) gwID₂ hq
            by_cases hq' : gwID₂ = gwID
            · subst hq'
              refine ⟨(gwID₂, { gn with httpRoutes := insertRef hrID gn.httpRoutes }),
                mem_insertA_self _ _ _, rfl, mem_insertRef_self _ _⟩
            · exact ⟨ge, mem_insertA_of_ne _ hge (by rw [hge1]; exact hq'), hge1, hmem⟩
        · obtain ⟨ge, hge, hge1, hmem⟩ := hF₂ re hre' gwID₂ hgw₂
          by_cases hq' : gwID₂ = gwID
          · subst hq'
            have : lookupA ge.1 rm.gateways = some ge.2 :=
              lookupA_of_mem_pair hge hnd.2.2.1
            rw [hge1, hgw] at this
            have hgn : ge.2 = gn := by injection this with h; exact h.symm
            refine ⟨(gwID₂, { gn with httpRoutes := insertRef hrID gn.httpRoutes }),
              mem_insertA_self _ _ _, rfl, mem_insertRef_of_mem (hgn ▸ hmem)⟩
          · exact ⟨ge, mem_insertA_of_ne _ hge (by rw [hge1]; exact hq'), hge1, hmem⟩
      · intro ge hge hrID₂ hhr₂
        rcases mem_insertA hge with hge' | hge'
        · subst hge'
          rcases mem_insertRef hhr₂ with hq | hq
          · subst hq
            exact ⟨(hrID₂, { rn with gateways := insertRef gwID rn.gateways }),
              mem_insertA_self _ _ _, rfl, mem_insertRef_self _ _⟩
          · obtain ⟨re, hre, hre1, hmem⟩ :=
              hF₃ (gwID, gn) (mem_of_lookupA_eq_some hgw) hrID₂ hq
            by_cases hq' : hrID₂ = hrID
            · subst hq'
              have : lookupA re.1 rm.httpRoutes = some re.2 :=
                lookupA_of_mem_pair hre hnd.2.2.2.1
              rw [hre1, hhr] at this
              have hrn : re.2 = rn := by injection this with h; exact h.symm
              refine ⟨(hrID₂, { rn with gateways := insertRef gwID rn.gateways }),
                mem_insertA_self _ _ _, rfl, mem_insertRef_of_mem (hrn ▸ hmem)⟩
            · exact ⟨re, mem_insertA_of_ne _ hre (by rw [hre1]; exact hq'), hre1, hmem⟩
        · obtain ⟨re, hre, hre1, hmem⟩ := hF₃ ge hge' hrID₂ hhr₂
          by_cases hq' : hrID₂ = hrID
          · subst hq'
            have : lookupA re.1 rm.httpRoutes = some re.2 :=
              lookupA_of_mem_pair hre hnd.2.2.2.1
            rw [hre1, hhr] at this
            have hrn : re.2 = rn := by injection this with h; exact h.symm
            refine ⟨(hrID₂, { rn with gateways := insertRef gwID rn.gateways }),
              mem_insertA_self _ _ _, rfl, mem_insertRef_of_mem (hrn ▸ hmem)⟩
          · exact ⟨re, mem_insertA_of_ne _ hre (by rw [hre1]; exact hq'), hre1, hmem⟩

def rmConnectBase : ResourceModel :=
  addHTTPRoutes
    (addGateways (addGatewayClasses ResourceModel.empty [⟨"c1"⟩, ⟨"c2"⟩])
      [⟨"default", "g"⟩])
    [⟨"default", "r"⟩]

def rmConnectOnce : ResourceModel :=
  (connectGatewayWithGatewayClass rmConnectBase (GatewayID "default" "g")
    (GatewayClassID "c1")).1

def rmStale : ResourceModel :=
  (connectGatewayWithGatewayClass rmConnectOnce (GatewayID "default" "g")
    (GatewayClassID "c2")).1

/-- Counterexample to claim C7 as stated: after the successful connect
sequence gateway→c1 then gateway→c2, class c1's reverse index still names
the gateway although the gateway's forward reference now names c2, so not
every stored cross-reference is bidirectional. -/
theorem C7_connect_bidirectional_counterexample :
    (connectGatewayWithGatewayClass rmConnectOnce (GatewayID "default" "g")
        (GatewayClassID "c2")).2 = [] ∧
    ¬ BidirectionalRefs rmStale ∧
    (∃ ce ∈ rmStale.gatewayClasses, ce.1 = GatewayClassID "c1" ∧
        GatewayID "default" "g" ∈ ce.2.gateways) ∧
    (∃ ge ∈ rmStale.gateways, ge.1 = GatewayID "default" "g" ∧
        ge.2.gatewayClass = some (GatewayClassID "c2")) := by
  decide

/-- Claim C7 (amended): a connect operation with a missing endpoint leaves
the model unchanged and only emits a diagnostic naming the missing node;
a connect with both endpoints present emits no diagnostic and updates
both endpoints in that single operation (the child's parent reference and
the parent's reverse index).  After any sequence of connect operations
every *forward* reference has a matching reverse-index entry (and
route↔gateway edges are mutual in both directions), but full
bidirectionality does not hold: re-connecting a gateway to a different
class leaves a stale entry in the old class's reverse index. -/
theorem C7_connect_bidirectional_amended :
    (∀ (rm : ResourceModel) (gwID : gatewayID) (gcID : gatewayClassID),
        lookupA gwID rm.gateways = none →
        connectGatewayWithGatewayClass rm gwID gcID =
          (rm, [Diag.missingNode (TargetID.gateway gwID)])) ∧
    (∀ (rm : ResourceModel) (gwID : gatewayID) (gcID : gatewayClassID) (gn : GatewayNode),
        lookupA gwID rm.gateways = some gn → lookupA gcID rm.gatewayClasses = none →
        connectGatewayWithGatewayClass rm gwID gcID =
          (rm, [Diag.missingNode (TargetID.gatewayClass gcID)])) ∧
    (∀ (rm : ResourceModel) (hrID : httpRouteID) (gwID : gatewayID),
        lookupA hrID rm.httpRoutes = none →
        connectHTTPRouteWithGateway rm hrID gwID =
          (rm, [Diag.missingNode (TargetID.httpRoute hrID)])) ∧
    (∀ (rm : ResourceModel) (hrID : httpRouteID) (gwID : gatewayID) (rn : HTTPRouteNode),
        lookupA hrID rm.httpRoutes = some rn → lookupA gwID rm.gateways = none →
        connectHTTPRouteWithGateway rm hrID gwID =
          (rm, [Diag.missingNode (TargetID.gateway gwID)])) ∧
    (∀ (rm : ResourceModel) (gwID : gatewayID) (gcID : gatewayClassID)
        (gn : GatewayNode) (cn : GatewayClassNode),
        lookupA gwID rm.gateways = some gn → lookupA gcID rm.gatewayClasses = some cn →
        (connectGatewayWithGatewayClass rm gwID gcID).2 = [] ∧
        lookupA gwID (connectGatewayWithGatewayClass rm gwID gcID).1.gateways =
          some { gn with gatewayClass := some gcID } ∧
        lookupA gcID (connectGatewayWithGatewayClass rm gwID gcID).1.gatewayClasses =
          some { cn with gateways := insertRef gwID cn.gateways }) ∧
    (∀ (rm : ResourceModel) (hrID : httpRouteID) (gwID : gatewayID)
        (rn : HTTPRouteNode) (gn : GatewayNode),
        lookupA hrID rm.httpRoutes = some rn → lookupA gwID rm.gateways = some gn →
        (connectHTTPRouteWithGateway rm hrID gwID).2 = [] ∧
        lookupA hrID (connectHTTPRouteWithGateway rm hrID gwID).1.httpRoutes =
          some { rn with gateways := insertRef gwID rn.gateways } ∧
        lookupA gwID (connectHTTPRouteWithGateway rm hrID gwID).1.gateways =
          some { gn with httpRoutes := insertRef hrID gn.httpRoutes }) ∧
    (∀ (rm : ResourceModel) (gwID : gatewayID) (gcID : gatewayClassID),
        nodupKeys rm → ForwardBacked rm →
        nodupKeys (connectGatewayWithGatewayClass rm gwID gcID).1 ∧
        ForwardBacked (connectGatewayWithGatewayClass rm gwID gcID).1) ∧
    (∀ (rm : ResourceModel) (hrID : httpRouteID) (gwID : gatewayID),
        nodupKeys rm → ForwardBacked rm →
        nodupKeys (connectHTTPRouteWithGateway rm hrID gwID).1 ∧
        ForwardBacked (connectHTTPRouteWithGateway rm hrID gwID).1) := by
  refine ⟨?_, ?_, ?_, ?_, ?_, ?_,
    fun rm gwID gcID hnd hF => ⟨connectGatewayWithGatewayClass_nodupKeys rm gwID gcID hnd,
      connectGatewayWithGatewayClass_forwardBacked rm gwID gcID hnd hF⟩,
    fun rm hrID gwID hnd hF => ⟨connectHTTPRouteWithGateway_nodupKeys rm hrID gwID hnd,
      connectHTTPRouteWithGateway_forwardBacked rm hrID gwID hnd hF⟩⟩
  · intro rm gwID gcID h
    simp [connectGatewayWithGatewayClass, h]
  · intro rm gwID gcID gn h₁ h₂
    simp [connectGatewayWithGatewayClass, h₁, h₂]
  · intro rm hrID gwID h
    simp [connectHTTPRouteWithGateway, h]
  · intro rm hrID gwID rn h₁ h₂
    simp [connectHTTPRouteWithGateway, h₁, h₂]
  · intro rm gwID gcID gn cn h₁ h₂
    refine ⟨?_, ?_, ?_⟩ <;>
      simp [connectGatewayWithGatewayClass, h₁, h₂, lookupA_insertA_self]
  · intro rm hrID gwID rn gn h₁ h₂
    refine ⟨?_, ?_, ?_⟩ <;>
      simp [connectHTTPRouteWithGateway, h₁, h₂, lookupA_insertA_self]

/-- Witness for the amended C7 on a concrete model: a connect against the
empty model is a diagnosed no-op, and a successful connect preserves the
forward-backed invariant. -/
theorem C7_connect_bidirectional_amended_witness :
    (lookupA (GatewayID "default" "g") ResourceModel.empty.gateways = none ∧
      connectGatewayWithGatewayClass ResourceModel.empty (GatewayID "default" "g")
          (GatewayClassID "c1") =
        (ResourceModel.empty,
          [Diag.missingNode (TargetID.gateway (GatewayID "default" "g"))])) ∧
    (nodupKeys rmConnectBase ∧ ForwardBacked rmConnectBase ∧
      nodupKeys rmConnectOnce ∧ ForwardBacked rmConnectOnce) :=
  ⟨⟨by decide, C7_connect_bidirectional_amended.1 ResourceModel.empty _ _ (by decide)⟩,
    by decide, by decide,
    (C7_connect_bidirectional_amended.2.2.2.2.2.2.1 rmConnectBase
      (GatewayID "default" "g") (GatewayClassID "c1") (by decide) (by decide)).1,
    (C7_connect_bidirectional_amended.2.2.2.2.2.2.1 rmConnectBase
      (GatewayID "default" "g") (GatewayClassID "c1") (by decide) (by decide)).2⟩

/-! ## Claim C6: the policy attacher -/

/-- The target-resolution dispatch exactly as the claim words it:
GatewayClass / Gateway / HTTPRoute for routing-group kinds, Namespace for
the core group's Namespace kind, and *otherwise* a Backend. -/
def specResolveTarget (p : Policy) : TargetID :=
  if p.targetGroup = gatewayGroupName ∧ p.targetKind = "GatewayClass" then
    TargetID.gatewayClass (GatewayClassID p.targetName)
  else if p.targetGroup = gatewayGroupName ∧ p.targetKind = "Gateway" then
    TargetID.gateway (GatewayID p.targetNs p.targetName)
  else if p.targetGroup = gatewayGroupName ∧ p.targetKind = "HTTPRoute" then
    TargetID.httpRoute (HTTPRouteID p.targetNs p.targetName)
  else if p.targetGroup = coreGroupName ∧ p.targetKind = "Namespace" then
    TargetID.ns (NamespaceID p.targetName)
  else
    TargetID.backend (BackendID p.targetGroup p.targetKind p.targetNs p.targetName)

/-- The dispatch the source implements: the outer switch matches the
routing group first and its inner switch recognizes only the three kinds,
so a routing-group policy with any other kind resolves to no target at
all (`none`) instead of falling through to the Backend default. -/
def resolveTargetGo (p : Policy) : Option TargetID :=
  if p.targetGroup = gatewayGroupName then
    if p.targetKind = "GatewayClass" then
      some (TargetID.gatewayClass (GatewayClassID p.targetName))
    else if p.targetKind = "Gateway" then
      some (TargetID.gateway (GatewayID p.targetNs p.targetName))
    else if p.targetKind = "HTTPRoute" then
      some (TargetID.httpRoute (HTTPRouteID p.targetNs p.targetName))
    else
      none
  else if p.targetGroup = coreGroupName ∧ p.targetKind = "Namespace" then
    some (TargetID.ns (NamespaceID p.targetName))
  else
    some (TargetID.backend (BackendID p.targetGroup p.targetKind p.targetNs p.targetName))

def targetExists (rm : ResourceModel) : TargetID → Bool
  | .gatewayClass id => (lookupA id rm.gatewayClasses).isSome
  | .gateway id => (lookupA id rm.gateways).isSome
  | .httpRoute id => (lookupA id rm.httpRoutes).isSome
  | .ns id => (lookupA id rm.namespaces).isSome
  | .backend id => (lookupA id rm.backends).isSome
  | .referenceGrant id => (lookupA id rm.referenceGrants).isSome

/-- How many of a policy node's five back-reference slots are set. -/
def PolicyNode.backrefCount (n : PolicyNode) : Nat :=
  (if n.gatewayClass.isSome then 1 else 0) + (if n.gateway.isSome then 1 else 0) +
    (if n.httpRoute.isSome then 1 else 0) + (if n.ns.isSome then 1 else 0) +
    (if n.backend.isSome then 1 else 0)

/-- The policy node's back-reference names exactly the given target. -/
def PolicyNode.pointsTo (n : PolicyNode) : TargetID → Prop
  | .gatewayClass id => n.gatewayClass = some id
  | .gateway id => n.gateway = some id
  | .httpRoute id => n.httpRoute = some id
  | .ns id => n.ns = some id
  | .backend id => n.backend = some id
  | .referenceGrant _ => False

/-- The target node's local policy mapping contains the policy. -/
def localPoliciesContain (rm : ResourceModel) (pid : policyID) (p : Policy) :
    TargetID → Prop
  | .gatewayClass id =>
    ∃ cn, lookupA id rm.gatewayClasses = some cn ∧ lookupA pid cn.policies = some p
  | .gateway id => ∃ gn, lookupA id rm.gateways = some gn ∧ lookupA pid gn.policies = some p
  | .httpRoute id => ∃ rn, lookupA id rm.httpRoutes = some rn ∧ lookupA pid rn.policies = some p
  | .ns id => ∃ nn, lookupA id rm.namespaces = some nn ∧ lookupA pid nn.policies = some p
  | .backend id => ∃ bn, lookupA id rm.backends = some bn ∧ lookupA pid bn.policies = some p
  | .referenceGrant _ => False

/-- Successful attachment as the claim describes it: no diagnostic, the
policy node is registered in the global policy mapping with exactly one
back-reference naming the target, and in the target's local mapping. -/
def attachRegistered (rm : ResourceModel) (p : Policy) (t : TargetID) : Prop :=
  (attachOne rm p).2 = [] ∧
    (∃ n : PolicyNode, lookupA p.id (attachOne rm p).1.policies = some n ∧
      n.policy = p ∧ n.backrefCount = 1 ∧ n.pointsTo t) ∧
    localPoliciesContain (attachOne rm p).1 p.id p t

def polTCPRoute : Policy :=
  { crdID := "k", ns := "default", name := "p-tcp", isInherited := false,
    targetGroup := gatewayGroupName, targetKind := "TCPRoute",
    targetNs := "default", targetName := "b" }

def rmTCPBackend : ResourceModel :=
  addBackends ResourceModel.empty [⟨gatewayGroupName, "TCPRoute", "default", "b"⟩]

/-- Counterexample to claim C6 as stated: a policy in the routing group
whose kind is `TCPRoute` resolves, per the claim's dispatch, to a Backend
that exists in the model, yet the attacher drops it silently — the model
is unchanged, no diagnostic is emitted and no policy node is registered. -/
theorem C6_policy_attach_counterexample :
    specResolveTarget polTCPRoute =
      TargetID.backend (BackendID gatewayGroupName "TCPRoute" "default" "b") ∧
    targetExists rmTCPBackend (specResolveTarget polTCPRoute) = true ∧
    addPolicyIfTargetExists rmTCPBackend [polTCPRoute] = (rmTCPBackend, []) ∧
    rmTCPBackend.policies = [] := by
  decide

/-- Claim C6 (amended): the batch attacher processes every policy in turn
(one failure never stops the batch); a policy whose code-dispatched
target does not exist is dropped with a single diagnostic naming the
policy and the computed target identity, leaving the model unchanged; a
policy whose target exists is registered in the global policy mapping and
the target node's local mapping with exactly one back-reference set to
the target.  Unlike the claim's dispatch, however, a routing-group policy
whose kind is none of GatewayClass/Gateway/HTTPRoute resolves to no
target at all and is dropped *silently* (no diagnostic, no backend
fallback). -/
theorem C6_policy_attach_amended :
    (∀ (rm : ResourceModel) (p : Policy) (ps : List Policy),
        addPolicyIfTargetExists rm (p :: ps) =
          ((addPolicyIfTargetExists (attachOne rm p).1 ps).1,
            (attachOne rm p).2 ++ (addPolicyIfTargetExists (attachOne rm p).1 ps).2)) ∧
    (∀ (rm : ResourceModel) (p : Policy),
        resolveTargetGo p = none → attachOne rm p = (rm, [])) ∧
    (∀ (rm : ResourceModel) (p : Policy) (t : TargetID),
        resolveTargetGo p = some t → targetExists rm t = false →
        attachOne rm p = (rm, [Diag.policySkipped p.name t])) ∧
    (∀ (rm : ResourceModel) (p : Policy) (t : TargetID),
        resolveTargetGo p = some t → targetExists rm t = true →
        attachRegistered rm p t) := by
  refine ⟨fun rm p ps => rfl, ?_, ?_, ?_⟩
  · intro rm p h
    by_cases hg : p.targetGroup = gatewayGroupName
    · by_cases h1 : p.targetKind = "GatewayClass"
      · simp [resolveTargetGo, hg, h1] at h
      · by_cases h2 : p.targetKind = "Gateway"
        · simp [resolveTargetGo, hg, h1, h2] at h
        · by_cases h3 : p.targetKind = "HTTPRoute"
          · simp [resolveTargetGo, hg, h1, h2, h3] at h
          · simp [attachOne, hg, h1, h2, h3]
    · by_cases hns : p.targetGroup = coreGroupName ∧ p.targetKind = "Namespace"
      · simp [resolveTargetGo, gatewayGroupName, coreGroupName, hg, hns] at h
      · simp [resolveTargetGo, hg, hns] at h
  · intro rm p t h hex
    by_cases hg : p.targetGroup = gatewayGroupName
    · by_cases h1 : p.targetKind = "GatewayClass"
      · simp [resolveTargetGo, hg, h1] at h
        subst h
        simp only [targetExists] at hex
        cases hl : lookupA (GatewayClassID p.targetName) rm.gatewayClasses with
        | some cn => rw [hl] at hex; simp at hex
        | none => simp [attachOne, hg, h1, hl]
      · by_cases h2 : p.targetKind = "Gateway"
        · simp [resolveTargetGo, hg, h1, h2] at h
          subst h
          simp only [targetExists] at hex
          cases hl : lookupA (GatewayID p.targetNs p.targetName) rm.gateways with
          | some gn => rw [hl] at hex; simp at hex
          | none => simp [attachOne, hg, h1, h2, hl]
        · by_cases h3 : p.targetKind = "HTTPRoute"
          · simp [resolveTargetGo, hg, h1, h2, h3] at h
            subst h
            simp only [targetExists] at hex
            cases hl : lookupA (HTTPRouteID p.targetNs p.targetName) rm.httpRoutes with
            | some rn => rw [hl] at hex; simp at hex
            | none => simp [attachOne, hg, h1, h2, h3, hl]
          · simp [resolveTargetGo, hg, h1, h2, h3] at h
    · by_cases hns : p.targetGroup = coreGroupName ∧ p.targetKind = "Namespace"
      · simp [resolveTargetGo, gatewayGroupName, coreGroupName, hg, hns] at h
        subst h
        simp only [targetExists] at hex
        cases hl : lookupA (NamespaceID p.targetName) rm.namespaces with
        | some nn => rw [hl] at hex; simp at hex
        | none => simp [attachOne, gatewayGroupName, coreGroupName, hg, hns, hl]
      · simp [resolveTargetGo, hg, hns] at h
        subst h
        simp only [targetExists] at hex
        cases hl : lookupA (BackendID p.targetGroup p.targetKind p.targetNs p.targetName)
            rm.backends with
        | some bn => rw [hl] at hex; simp at hex
        | none => simp [attachOne, hg, hns, hl]
  · intro rm p t h hex
    by_cases hg : p.targetGroup = gatewayGroupName
    · by_cases h1 : p.targetKind = "GatewayClass"
      · simp [resolveTargetGo, hg, h1] at h
        subst h
        simp only [targetExists] at hex
        obtain ⟨cn, hl⟩ := Option.isSome_iff_exists.mp hex
        refine ⟨by simp [attachOne, hg, h1, hl], ?_, ?_⟩
        · refine ⟨{ policy := p, gatewayClass := some (GatewayClassID p.targetName) },
            by simp [attachOne, NewPolicyNode, hg, h1, hl, lookupA_insertA_self],
            rfl, rfl, rfl⟩
        · exact ⟨{ cn with policies := insertA p.id p cn.policies },
            by simp [attachOne, hg, h1, hl, lookupA_insertA_self],
            lookupA_insertA_self _ _ _⟩
      · by_cases h2 : p.targetKind = "Gateway"
        · simp [resolveTargetGo, hg, h1, h2] at h
          subst h
          simp only [targetExists] at hex
          obtain ⟨gn, hl⟩ := Option.isSome_iff_exists.mp hex
          refine ⟨by simp [attachOne, hg, h1, h2, hl], ?_, ?_⟩
          · refine ⟨{ policy := p, gateway := some (GatewayID p.targetNs p.targetName) },
              by simp [attachOne, NewPolicyNode, hg, h1, h2, hl, lookupA_insertA_self],
              rfl, rfl, rfl⟩
          · exact ⟨{ gn with policies := insertA p.id p gn.policies },
              by simp [attachOne, hg, h1, h2, hl, lookupA_insertA_self],
              lookupA_insertA_self _ _ _⟩
        · by_cases h3 : p.targetKind = "HTTPRoute"
          · simp [resolveTargetGo, hg, h1, h2, h3] at h
            subst h
            simp only [targetExists] at hex
            obtain ⟨rn, hl⟩ := Option.isSome_iff_exists.mp hex
            refine ⟨by simp [attachOne, hg, h1, h2, h3, hl], ?_, ?_⟩
            · refine ⟨{ policy := p, httpRoute := some (HTTPRouteID p.targetNs p.targetName) },
                by simp [attachOne, NewPolicyNode, hg, h1, h2, h3, hl, lookupA_insertA_self],
                rfl, rfl, rfl⟩
            · exact ⟨{ rn with policies := insertA p.id p rn.policies },
                by simp [attachOne, hg, h1, h2, h3, hl, lookupA_insertA_self],
                lookupA_insertA_self _ _ _⟩
          · simp [resolveTargetGo, hg, h1, h2, h3] at h
    · by_cases hns : p.targetGroup = coreGroupName ∧ p.targetKind = "Namespace"
      · simp [resolveTargetGo, gatewayGroupName, coreGroupName, hg, hns] at h
        subst h
        simp only [targetExists] at hex
        obtain ⟨nn, hl⟩ := Option.isSome_iff_exists.mp hex
        refine ⟨by simp [attachOne, gatewayGroupName, coreGroupName, hg, hns, hl], ?_, ?_⟩
        · refine ⟨{ policy := p, ns := some (NamespaceID p.targetName) },
            by simp [attachOne, NewPolicyNode, gatewayGroupName, coreGroupName, hg, hns, hl,
              lookupA_insertA_self],
            rfl, rfl, rfl⟩
        · exact ⟨{ nn with policies := insertA p.id p nn.policies },
            by simp [attachOne, gatewayGroupName, coreGroupName, hg, hns, hl,
              lookupA_insertA_self],
            lookupA_insertA_self _ _ _⟩
      · simp [resolveTargetGo, hg, hns] at h
        subst h
        simp only [targetExists] at hex
        obtain ⟨bn, hl⟩ := Option.isSome_iff_exists.mp hex
        refine ⟨by simp [attachOne, hg, hns, hl], ?_, ?_⟩
        · refine ⟨{ policy := p, backend := some (BackendID p.targetGroup p.targetKind p.targetNs p.targetName) },
            by simp [attachOne, NewPolicyNode, hg, hns, hl, lookupA_insertA_self],
            rfl, rfl, rfl⟩
        · exact ⟨{ bn with policies := insertA p.id p bn.policies },
            by simp [attachOne, hg, hns, hl, lookupA_insertA_self],
            lookupA_insertA_self _ _ _⟩

def polOnNamespace : Policy :=
  { crdID := "ratelimit", ns := "default", name := "p-ns", isInherited := true,
    targetGroup := coreGroupName, targetKind := "Namespace",
    targetNs := "", targetName := "default" }

def rmOneNamespace : ResourceModel := addNamespace ResourceModel.empty [⟨"default"⟩]

/-- Witness for the amended C6: a namespace-targeted policy attaches to an
existing Namespace node, a gateway-targeted policy against an empty model
is dropped with a diagnostic, and a routing-group policy of unknown kind
is dropped silently. -/
theorem C6_policy_attach_amended_witness :
    (resolveTargetGo polOnNamespace = some (TargetID.ns (NamespaceID "default")) ∧
      targetExists rmOneNamespace (TargetID.ns (NamespaceID "default")) = true ∧
      attachRegistered rmOneNamespace polOnNamespace (TargetID.ns (NamespaceID "default"))) ∧
    (resolveTargetGo polTCPRoute = none ∧
      attachOne ResourceModel.empty polTCPRoute = (ResourceModel.empty, [])) ∧
    (targetExists ResourceModel.empty (TargetID.ns (NamespaceID "default")) = false ∧
      attachOne ResourceModel.empty polOnNamespace =
        (ResourceModel.empty,
          [Diag.policySkipped "p-ns" (TargetID.ns (NamespaceID "default"))])) :=
  ⟨⟨by decide, by decide,
      C6_policy_attach_amended.2.2.2 rmOneNamespace polOnNamespace _ (by decide) (by decide)⟩,
    ⟨by decide, C6_policy_attach_amended.2.1 ResourceModel.empty polTCPRoute (by decide)⟩,
    ⟨by decide,
      C6_policy_attach_amended.2.2.1 ResourceModel.empty polOnNamespace _ (by decide)
        (by decide)⟩⟩

/-! ## Claim C10: unconditional namespace dereference in the effective passes -/

theorem except_bind_ok {α β ε : Type} (a : α) (f : α → Except ε β) :
    (Except.ok a >>= f) = f a := rfl

theorem except_bind_error {α β ε : Type} (e : ε) (f : α → Except ε β) :
    ((Except.error e : Except ε α) >>= f) = Except.error e := rfl

/-- A concrete, total policy capability used by witnesses: same-kind merge
keys the policies by merge-kind identifier, the two map merges let the
second mapping's entries override the first's. -/
def pmOk : PolicyManager :=
  { MergePoliciesOfSimilarKind := fun ps =>
      Except.ok (ps.foldl (fun m p => insertA p.crdID p m) []),
    MergePoliciesOfDifferentHierarchy := fun a b =>
      Except.ok (b.foldl (fun m e => insertA e.1 e.2 m) a),
    MergePoliciesOfSameHierarchy := fun a b =>
      Except.ok (b.foldl (fun m e => insertA e.1 e.2 m) a) }

/-- A concrete policy capability that reports a conflict whenever any
policies at all compete at one hierarchy level. -/
def pmConflict : PolicyManager :=
  { MergePoliciesOfSimilarKind := fun ps =>
      if ps.isEmpty then Except.ok [] else Except.error "conflict",
    MergePoliciesOfDifferentHierarchy := fun a b =>
      Except.ok (b.foldl (fun m e => insertA e.1 e.2 m) a),
    MergePoliciesOfSameHierarchy := fun a b =>
      Except.ok (b.foldl (fun m e => insertA e.1 e.2 m) a) }

theorem routeGatewaysLoop_error {pm : PolicyManager} {gws : List (gatewayID × GatewayNode)}
    {nsByKind rByKind : List (String × Policy)} :
    ∀ (l : List gatewayID) (acc : List (gatewayID × List (String × Policy))) (e : Err),
      (∀ gid ∈ l, (lookupA gid gws).isSome) →
      routeGatewaysLoop pm gws nsByKind rByKind l acc = Except.error e →
      ∃ msg, e = Err.mergeConflict msg
  | [], _, _, _, h => by simp [routeGatewaysLoop] at h
  | gid :: rest, acc, e, hall, h => by
    obtain ⟨gn, hgn⟩ := Option.isSome_iff_exists.mp (hall gid (List.mem_cons_self _ _))
    simp only [routeGatewaysLoop, hgn] at h
    cases hm1 : pm.MergePoliciesOfDifferentHierarchy (gn.effectivePolicies.getD []) nsByKind with
    | error m =>
      rw [hm1] at h
      simp [wrapMerge, except_bind_error] at h
      exact ⟨m, h.symm⟩
    | ok v1 =>
      rw [hm1] at h
      simp only [wrapMerge, except_bind_ok] at h
      cases hm2 : pm.MergePoliciesOfDifferentHierarchy v1 rByKind with
      | error m =>
        rw [hm2] at h
        simp [except_bind_error] at h
        exact ⟨m, h.symm⟩
      | ok v2 =>
        rw [hm2] at h
        simp only [except_bind_ok] at h
        exact routeGatewaysLoop_error rest _ e (fun g hg => hall g (List.mem_cons_of_mem _ hg)) h

theorem backendGatewayFold_error {pm : PolicyManager} :
    ∀ (l acc : List (gatewayID × List (String × Policy))) (e : Err),
      backendGatewayFold pm l acc = Except.error e → ∃ msg, e = Err.mergeConflict msg
  | [], _, _, h => by simp [backendGatewayFold] at h
  | (gid, policies) :: rest, acc, e, h => by
    rw [backendGatewayFold] at h
    cases hm : pm.MergePoliciesOfSameHierarchy ((lookupA gid acc).getD []) policies with
    | error m =>
      rw [hm] at h
      simp [wrapMerge, except_bind_error] at h
      exact ⟨m, h.symm⟩
    | ok v =>
      rw [hm] at h
      simp only [wrapMerge, except_bind_ok] at h
      exact backendGatewayFold_error rest _ e h

theorem backendRoutesLoop_error {pm : PolicyManager} {hrs : List (httpRouteID × HTTPRouteNode)} :
    ∀ (l : List httpRouteID) (acc : List (gatewayID × List (String × Policy))) (e : Err),
      (∀ rid ∈ l, (lookupA rid hrs).isSome) →
      backendRoutesLoop pm hrs l acc = Except.error e →
      ∃ msg, e = Err.mergeConflict msg
  | [], _, _, _, h => by simp [backendRoutesLoop] at h
  | rid :: rest, acc, e, hall, h => by
    obtain ⟨rn, hrn⟩ := Option.isSome_iff_exists.mp (hall rid (List.mem_cons_self _ _))
    simp only [backendRoutesLoop, hrn] at h
    cases hfold : backendGatewayFold pm (rn.effectivePolicies.getD []) acc with
    | error m =>
      rw [hfold] at h
      simp only [except_bind_error] at h
      cases h
      exact backendGatewayFold_error _ _ _ hfold
    | ok acc' =>
      rw [hfold] at h
      simp only [except_bind_ok] at h
      exact backendRoutesLoop_error rest _ e (fun r hr => hall r (List.mem_cons_of_mem _ hr)) h

theorem backendOverlayLoop_error {pm : PolicyManager} {nsByKind bByKind : List (String × Policy)} :
    ∀ (l : List (gatewayID × List (String × Policy))) (e : Err),
      backendOverlayLoop pm nsByKind bByKind l = Except.error e →
      ∃ msg, e = Err.mergeConflict msg
  | [], _, h => by simp [backendOverlayLoop] at h
  | (gid, v) :: rest, e, h => by
    rw [backendOverlayLoop] at h
    cases hm1 : pm.MergePoliciesOfDifferentHierarchy v nsByKind with
    | error m =>
      rw [hm1] at h
      simp [wrapMerge, except_bind_error] at h
      exact ⟨m, h.symm⟩
    | ok v1 =>
      rw [hm1] at h
      simp only [wrapMerge, except_bind_ok] at h
      cases hm2 : pm.MergePoliciesOfDifferentHierarchy v1 bByKind with
      | error m =>
        rw [hm2] at h
        simp [except_bind_error] at h
        exact ⟨m, h.symm⟩
      | ok v2 =>
        rw [hm2] at h
        simp only [except_bind_ok] at h
        cases hrest : backendOverlayLoop pm nsByKind bByKind rest with
        | error m =>
          rw [hrest] at h
          simp only [except_bind_error] at h
          cases h
          exact backendOverlayLoop_error rest _ hrest
        | ok r =>
          rw [hrest] at h
          simp [except_bind_ok] at h

/-- Claim C10: every effective-policy pass dereferences the node's
Namespace back-reference unconditionally, with no nil check: a gateway
with a resolved class but an unresolved namespace (and likewise any route
or backend with an unresolved namespace) makes its per-node computation
hit the nil-dereference error instead of being skipped like an unresolved
class is; and under the precondition that the namespace reference (and
the stored graph references the loop walks) are resolved, the only error
a per-node computation can return is a merge conflict from the policy
capability — never the nil dereference. -/
theorem C10_unconditional_namespace_deref :
    (∀ (pm : PolicyManager) (gcs : List (gatewayClassID × GatewayClassNode))
        (nss : List (namespaceID × NamespaceNode)) (gcID : gatewayClassID)
        (g : GatewayNode) (gcNode : GatewayClassNode),
        lookupA gcID gcs = some gcNode → g.ns = none →
        gatewayEffective pm gcs nss gcID g = Except.error Err.nilPanic) ∧
    (∀ (pm : PolicyManager) (gws : List (gatewayID × GatewayNode))
        (nss : List (namespaceID × NamespaceNode)) (r : HTTPRouteNode),
        r.ns = none → routeEffective pm gws nss r = Except.error Err.nilPanic) ∧
    (∀ (pm : PolicyManager) (hrs : List (httpRouteID × HTTPRouteNode))
        (nss : List (namespaceID × NamespaceNode)) (b : BackendNode),
        b.ns = none → backendEffective pm hrs nss b = Except.error Err.nilPanic) ∧
    (∀ (pm : PolicyManager) (gcs : List (gatewayClassID × GatewayClassNode))
        (nss : List (namespaceID × NamespaceNode)) (gcID : gatewayClassID)
        (g : GatewayNode) (gcNode : GatewayClassNode) (nsID : namespaceID)
        (nsNode : NamespaceNode) (e : Err),
        lookupA gcID gcs = some gcNode → g.ns = some nsID → lookupA nsID nss = some nsNode →
        gatewayEffective pm gcs nss gcID g = Except.error e →
        ∃ msg, e = Err.mergeConflict msg) ∧
    (∀ (pm : PolicyManager) (gws : List (gatewayID × GatewayNode))
        (nss : List (namespaceID × NamespaceNode)) (r : HTTPRouteNode)
        (nsID : namespaceID) (nsNode : NamespaceNode) (e : Err),
        r.ns = some nsID → lookupA nsID nss = some nsNode →
        (∀ gid ∈ r.gateways, (lookupA gid gws).isSome) →
        routeEffective pm gws nss r = Except.error e →
        ∃ msg, e = Err.mergeConflict msg) ∧
    (∀ (pm : PolicyManager) (hrs : List (httpRouteID × HTTPRouteNode))
        (nss : List (namespaceID × NamespaceNode)) (b : BackendNode)
        (nsID : namespaceID) (nsNode : NamespaceNode) (e : Err),
        b.ns = some nsID → lookupA nsID nss = some nsNode →
        (∀ rid ∈ b.httpRoutes, (lookupA rid hrs).isSome) →
        backendEffective pm hrs nss b = Except.error e →
        ∃ msg, e = Err.mergeConflict msg) := by
  refine ⟨?_, ?_, ?_, ?_, ?_, ?_⟩
  · intro pm gcs nss gcID g gcNode h1 h2
    simp [gatewayEffective, h1, h2, derefNamespace, except_bind_ok, except_bind_error]
  · intro pm gws nss r h
    simp [routeEffective, h, derefNamespace, except_bind_error]
  · intro pm hrs nss b h
    simp [backendEffective, h, derefNamespace, except_bind_error]
  · intro pm gcs nss gcID g gcNode nsID nsNode e h1 h2 h3 he
    simp only [gatewayEffective, h1, h2, h3, derefNamespace, except_bind_ok] at he
    cases hm1 : pm.MergePoliciesOfSimilarKind (convertPoliciesMapToSlice gcNode.policies) with
    | error m =>
      rw [hm1] at he
      simp [wrapMerge, except_bind_error] at he
      exact ⟨m, he.symm⟩
    | ok v1 =>
      rw [hm1] at he
      simp only [wrapMerge, except_bind_ok] at he
      cases hm2 : pm.MergePoliciesOfSimilarKind (convertPoliciesMapToSlice nsNode.policies) with
      | error m =>
        rw [hm2] at he
        simp [except_bind_error] at he
        exact ⟨m, he.symm⟩
      | ok v2 =>
        rw [hm2] at he
        simp only [except_bind_ok] at he
        cases hm3 : pm.MergePoliciesOfSimilarKind (convertPoliciesMapToSlice g.policies) with
        | error m =>
          rw [hm3] at he
          simp [except_bind_error] at he
          exact ⟨m, he.symm⟩
        | ok v3 =>
          rw [hm3] at he
          simp only [except_bind_ok] at he
          cases hm4 : pm.MergePoliciesOfDifferentHierarchy v1 v2 with
          | error m =>
            rw [hm4] at he
            simp [except_bind_error] at he
            exact ⟨m, he.symm⟩
          | ok v4 =>
            rw [hm4] at he
            simp only [except_bind_ok] at he
            cases hm5 : pm.MergePoliciesOfDifferentHierarchy v4 v3 with
            | error m =>
              rw [hm5] at he
              simp [except_bind_error] at he
              exact ⟨m, he.symm⟩
            | ok v5 =>
              rw [hm5] at he
              simp [except_bind_ok] at he
  · intro pm gws nss r nsID nsNode e h1 h2 h3 he
    simp only [routeEffective, h1, h2, derefNamespace, except_bind_ok] at he
    cases hm1 : pm.MergePoliciesOfSimilarKind (convertPoliciesMapToSlice r.policies) with
    | error m =>
      rw [hm1] at he
      simp [wrapMerge, except_bind_error] at he
      exact ⟨m, he.symm⟩
    | ok v1 =>
      rw [hm1] at he
      simp only [wrapMerge, except_bind_ok] at he
      cases hm2 : pm.MergePoliciesOfSimilarKind (convertPoliciesMapToSlice nsNode.policies) with
      | error m =>
        rw [hm2] at he
        simp [except_bind_error] at he
        exact ⟨m, he.symm⟩
      | ok v2 =>
        rw [hm2] at he
        simp only [except_bind_ok] at he
        exact routeGatewaysLoop_error r.gateways [] e h3 he
  · intro pm hrs nss b nsID nsNode e h1 h2 h3 he
    simp only [backendEffective, h1, h2, derefNamespace, except_bind_ok] at he
    cases hm1 : pm.MergePoliciesOfSimilarKind (convertPoliciesMapToSlice b.policies) with
    | error m =>
      rw [hm1] at he
      simp [wrapMerge, except_bind_error] at he
      exact ⟨m, he.symm⟩
    | ok v1 =>
      rw [hm1] at he
      simp only [wrapMerge, except_bind_ok] at he
      cases hm2 : pm.MergePoliciesOfSimilarKind (convertPoliciesMapToSlice nsNode.policies) with
      | error m =>
        rw [hm2] at he
        simp [except_bind_error] at he
        exact ⟨m, he.symm⟩
      | ok v2 =>
        rw [hm2] at he
        simp only [except_bind_ok] at he
        cases hrl : backendRoutesLoop pm hrs b.httpRoutes [] with
        | error m =>
          rw [hrl] at he
          simp only [except_bind_error] at he
          cases he
          exact backendRoutesLoop_error b.httpRoutes [] _ h3 hrl
        | ok acc =>
          rw [hrl] at he
          simp only [except_bind_ok] at he
          exact backendOverlayLoop_error acc e he

def gcsEx : List (gatewayClassID × GatewayClassNode) :=
  [(GatewayClassID "c", NewGatewayClassNode ⟨"c"⟩)]

def nssEx : List (namespaceID × NamespaceNode) :=
  [(NamespaceID "default", NewNamespaceNode ⟨"default"⟩)]

def gwNoNs : GatewayNode := NewGatewayNode ⟨"default", "g"⟩

def gwWithNs : GatewayNode :=
  { NewGatewayNode ⟨"default", "g"⟩ with ns := some (NamespaceID "default") }

def rtNoNs : HTTPRouteNode := NewHTTPRouteNode ⟨"default", "r"⟩

def rtWithNs : HTTPRouteNode :=
  { NewHTTPRouteNode ⟨"default", "r"⟩ with ns := some (NamespaceID "default") }

def beNoNs : BackendNode := NewBackendNode ⟨"", "Service", "default", "b"⟩

def beWithNs : BackendNode :=
  { NewBackendNode ⟨"", "Service", "default", "b"⟩ with ns := some (NamespaceID "default") }

/-- Witness for C10 at concrete nodes with and without namespace
references. -/
theorem C10_unconditional_namespace_deref_witness :
    (lookupA (GatewayClassID "c") gcsEx = some (NewGatewayClassNode ⟨"c"⟩) ∧
      gwNoNs.ns = none ∧
      gatewayEffective pmOk gcsEx nssEx (GatewayClassID "c") gwNoNs =
        Except.error Err.nilPanic) ∧
    (rtNoNs.ns = none ∧
      routeEffective pmOk [] nssEx rtNoNs = Except.error Err.nilPanic) ∧
    (beNoNs.ns = none ∧
      backendEffective pmOk [] nssEx beNoNs = Except.error Err.nilPanic) ∧
    (gwWithNs.ns = some (NamespaceID "default") ∧
      lookupA (NamespaceID "default") nssEx = some (NewNamespaceNode ⟨"default"⟩) ∧
      ∀ e : Err, gatewayEffective pmOk gcsEx nssEx (GatewayClassID "c") gwWithNs =
          Except.error e → ∃ msg, e = Err.mergeConflict msg) ∧
    (rtWithNs.ns = some (NamespaceID "default") ∧
      (∀ gid ∈ rtWithNs.gateways, (lookupA gid ([] : List (gatewayID × GatewayNode))).isSome) ∧
      ∀ e : Err, routeEffective pmOk [] nssEx rtWithNs = Except.error e →
        ∃ msg, e = Err.mergeConflict msg) ∧
    (beWithNs.ns = some (NamespaceID "default") ∧
      (∀ rid ∈ beWithNs.httpRoutes,
        (lookupA rid ([] : List (httpRouteID × HTTPRouteNode))).isSome) ∧
      ∀ e : Err, backendEffective pmOk [] nssEx beWithNs = Except.error e →
        ∃ msg, e = Err.mergeConflict msg) :=
  ⟨⟨by decide, rfl,
      C10_unconditional_namespace_deref.1 pmOk gcsEx nssEx (GatewayClassID "c") gwNoNs
        (NewGatewayClassNode ⟨"c"⟩) (by decide) rfl⟩,
    ⟨rfl, C10_unconditional_namespace_deref.2.1 pmOk [] nssEx rtNoNs rfl⟩,
    ⟨rfl, C10_unconditional_namespace_deref.2.2.1 pmOk [] nssEx beNoNs rfl⟩,
    ⟨rfl, by decide, fun e he =>
      C10_unconditional_namespace_deref.2.2.2.1 pmOk gcsEx nssEx _ gwWithNs
        (NewGatewayClassNode ⟨"c"⟩) (NamespaceID "default") (NewNamespaceNode ⟨"default"⟩) e
        (by decide) rfl (by decide) he⟩,
    ⟨rfl, by decide, fun e he =>
      C10_unconditional_namespace_deref.2.2.2.2.1 pmOk [] nssEx rtWithNs
        (NamespaceID "default") (NewNamespaceNode ⟨"default"⟩) e rfl (by decide)
        (by decide) he⟩,
    ⟨rfl, by decide, fun e he =>
      C10_unconditional_namespace_deref.2.2.2.2.2 pmOk [] nssEx beWithNs
        (NamespaceID "default") (NewNamespaceNode ⟨"default"⟩) e rfl (by decide)
        (by decide) he⟩⟩

/-! ## Claim C1: the gateway effective-policy pass -/

/-- The claim's formula for one gateway: same-kind-merge the class
policies, the gateway-namespace policies and the gateway's own policies
separately, then merge the three per-kind mappings pairwise, ancestor
level first (class+namespace, then that result+gateway). -/
def specGatewayEffective (pm : PolicyManager)
    (classPolicies nsPolicies ownPolicies : List (policyID × Policy)) :
    Except String (List (String × Policy)) := do
  let classByKind ← pm.MergePoliciesOfSimilarKind (convertPoliciesMapToSlice classPolicies)
  let nsByKind ← pm.MergePoliciesOfSimilarKind (convertPoliciesMapToSlice nsPolicies)
  let ownByKind ← pm.MergePoliciesOfSimilarKind (convertPoliciesMapToSlice ownPolicies)
  let ancestor ← pm.MergePoliciesOfDifferentHierarchy classByKind nsByKind
  pm.MergePoliciesOfDifferentHierarchy ancestor ownByKind

theorem gatewayEffective_eq_spec (pm : PolicyManager)
    {gcs : List (gatewayClassID × GatewayClassNode)}
    {nss : List (namespaceID × NamespaceNode)} {gcID : gatewayClassID} {g : GatewayNode}
    {gcNode : GatewayClassNode} {nsID : namespaceID} {nsNode : NamespaceNode}
    (h1 : lookupA gcID gcs = some gcNode) (h2 : g.ns = some nsID)
    (h3 : lookupA nsID nss = some nsNode) :
    gatewayEffective pm gcs nss gcID g =
      wrapMerge (specGatewayEffective pm gcNode.policies nsNode.policies g.policies) := by
  simp only [gatewayEffective, specGatewayEffective, h1, h2, h3, derefNamespace,
    except_bind_ok]
  cases hm1 : pm.MergePoliciesOfSimilarKind (convertPoliciesMapToSlice gcNode.policies) with
  | error m => simp [wrapMerge, hm1, except_bind_error]
  | ok v1 =>
    simp only [wrapMerge, hm1, except_bind_ok]
    cases hm2 : pm.MergePoliciesOfSimilarKind (convertPoliciesMapToSlice nsNode.policies) with
    | error m => simp [wrapMerge, hm2, except_bind_error]
    | ok v2 =>
      simp only [wrapMerge, hm2, except_bind_ok]
      cases hm3 : pm.MergePoliciesOfSimilarKind (convertPoliciesMapToSlice g.policies) with
      | error m => simp [wrapMerge, hm3, except_bind_error]
      | ok v3 =>
        simp only [wrapMerge, hm3, except_bind_ok]
        cases hm4 : pm.MergePoliciesOfDifferentHierarchy v1 v2 with
        | error m => simp [wrapMerge, hm4, except_bind_error]
        | ok v4 =>
          simp only [wrapMerge, hm4, except_bind_ok]
          cases hm5 : pm.MergePoliciesOfDifferentHierarchy v4 v3 with
          | error m => simp [wrapMerge, hm5, except_bind_error]
          | ok v5 => simp [wrapMerge, hm5, except_bind_ok]

theorem gatewayEffective_ok_inv {pm : PolicyManager}
    {gcs : List (gatewayClassID × GatewayClassNode)}
    {nss : List (namespaceID × NamespaceNode)} {gcID : gatewayClassID} {g : GatewayNode}
    {eff : List (String × Policy)}
    (h : gatewayEffective pm gcs nss gcID g = Except.ok eff) :
    ∃ gcNode nsID nsNode, lookupA gcID gcs = some gcNode ∧ g.ns = some nsID ∧
      lookupA nsID nss = some nsNode ∧
      specGatewayEffective pm gcNode.policies nsNode.policies g.policies = Except.ok eff := by
  cases h1 : lookupA gcID gcs with
  | none => rw [gatewayEffective, h1] at h; simp [except_bind_error] at h
  | some gcNode =>
    cases h2 : g.ns with
    | none =>
      rw [gatewayEffective, h1, h2] at h
      simp [derefNamespace, except_bind_ok, except_bind_error] at h
    | some nsID =>
      cases h3 : lookupA nsID nss with
      | none =>
        rw [gatewayEffective, h1, h2] at h
        simp [derefNamespace, h3, except_bind_ok, except_bind_error] at h
      | some nsNode =>
        rw [gatewayEffective_eq_spec pm h1 h2 h3] at h
        refine ⟨gcNode, nsID, nsNode, rfl, rfl, h3, ?_⟩
        cases hs : specGatewayEffective pm gcNode.policies nsNode.policies g.policies with
        | error m => rw [hs] at h; simp [wrapMerge] at h
        | ok v =>
          rw [hs] at h
          simp only [wrapMerge, Except.ok.injEq] at h
          rw [h]

/-- Claim C1: the gateway pass leaves every gateway whose GatewayClass
reference is unresolved untouched (its `EffectivePolicies` stays
uncomputed) no matter what policies exist elsewhere and even when the
pass aborts; and on a successful pass every gateway with a resolved class
has `EffectivePolicies` equal to the claim's formula: the class,
gateway-namespace and gateway policies merged by kind separately, then
pairwise-merged ancestor level first. -/
theorem C1_gateway_effective_policies :
    (∀ (pm : PolicyManager) (rm : ResourceModel) (gid : gatewayID) (g : GatewayNode),
        (rm.gateways.map Prod.fst).Nodup →
        lookupA gid rm.gateways = some g → g.gatewayClass = none →
        lookupA gid (calculateEffectivePoliciesForGateways pm rm).1.gateways = some g) ∧
    (∀ (pm : PolicyManager) (rm : ResourceModel),
        (calculateEffectivePoliciesForGateways pm rm).2 = none →
        (rm.gateways.map Prod.fst).Nodup →
        ∀ (gid : gatewayID) (g : GatewayNode) (gcID : gatewayClassID),
          lookupA gid rm.gateways = some g → g.gatewayClass = some gcID →
          ∃ gcNode nsID nsNode E,
            lookupA gcID rm.gatewayClasses = some gcNode ∧
            g.ns = some nsID ∧ lookupA nsID rm.namespaces = some nsNode ∧
            specGatewayEffective pm gcNode.policies nsNode.policies g.policies =
              Except.ok E ∧
            lookupA gid (calculateEffectivePoliciesForGateways pm rm).1.gateways =
              some { g with effectivePolicies := some E }) := by
  constructor
  · intro pm rm gid g hnd hlook hcls
    show lookupA gid
      (passFold (gatewayEffStep pm rm.gatewayClasses rm.namespaces) rm.gateways rm.gateways).1 =
        some g
    rw [passFold_lookup_of_skip _ rm.gateways rm.gateways ?_]
    · exact hlook
    · intro v hv
      have hveq : v = g := by
        have := lookupA_eq_some_of_mem hv hnd
        rw [hlook] at this
        injection this with h
        exact h.symm
      subst hveq
      simp [gatewayEffStep, hcls]
  · intro pm rm hsucc hnd gid g gcID hlook hcls
    have hmem := mem_of_lookupA_eq_some hlook
    have hsucc' :
        (passFold (gatewayEffStep pm rm.gatewayClasses rm.namespaces) rm.gateways
          rm.gateways).2 = none := hsucc
    have hp := passFold_success_lookup (gatewayEffStep pm rm.gatewayClasses rm.namespaces)
      rm.gateways rm.gateways hsucc' hnd hmem
    cases hge : gatewayEffective pm rm.gatewayClasses rm.namespaces gcID g with
    | error e =>
      obtain ⟨v', hv', _⟩ := hp.2 (Except.error e) (by simp [gatewayEffStep, hcls, hge])
      cases hv'
    | ok eff =>
      obtain ⟨v', hv', hlook'⟩ :=
        hp.2 (Except.ok { g with effectivePolicies := some eff })
          (by simp [gatewayEffStep, hcls, hge])
      have hv'' : v' = { g with effectivePolicies := some eff } := by
        injection hv' with h
        exact h.symm
      subst hv''
      obtain ⟨gcNode, nsID, nsNode, h1, h2, h3, hspec⟩ := gatewayEffective_ok_inv hge
      exact ⟨gcNode, nsID, nsNode, eff, h1, h2, h3, hspec, hlook'⟩

def polOnClass : Policy :=
  { crdID := "ratelimit", ns := "default", name := "p-class", isInherited := true,
    targetGroup := gatewayGroupName, targetKind := "GatewayClass",
    targetNs := "", targetName := "c" }

/-- A small discovered snapshot: class `c`, namespace `default`, gateway
`g` connected to both, gateway `g2` with an unresolved class, and one
policy attached to the class. -/
def rmC1 : ResourceModel :=
  (addPolicyIfTargetExists
    ((connectGatewayWithNamespace
      ((connectGatewayWithGatewayClass
        (addGateways (addNamespace (addGatewayClasses ResourceModel.empty [⟨"c"⟩])
          [⟨"default"⟩]) [⟨"default", "g"⟩, ⟨"default", "g2"⟩])
        (GatewayID "default" "g") (GatewayClassID "c")).1)
      (GatewayID "default" "g") (NamespaceID "default")).1)
    [polOnClass]).1

def gNodeC1 : GatewayNode :=
  { gateway := ⟨"default", "g"⟩, gatewayClass := some (GatewayClassID "c"),
    ns := some (NamespaceID "default") }

/-- Witness for C1 on `rmC1`: the unresolved gateway `g2` is untouched and
the resolved gateway `g` gets the claim's merged result. -/
theorem C1_gateway_effective_policies_witness :
    ((rmC1.gateways.map Prod.fst).Nodup ∧
      lookupA (GatewayID "default" "g2") rmC1.gateways =
        some (NewGatewayNode ⟨"default", "g2"⟩) ∧
      (NewGatewayNode ⟨"default", "g2"⟩).gatewayClass = none ∧
      lookupA (GatewayID "default" "g2")
          (calculateEffectivePoliciesForGateways pmOk rmC1).1.gateways =
        some (NewGatewayNode ⟨"default", "g2"⟩)) ∧
    ((calculateEffectivePoliciesForGateways pmOk rmC1).2 = none ∧
      lookupA (GatewayID "default" "g") rmC1.gateways = some gNodeC1 ∧
      gNodeC1.gatewayClass = some (GatewayClassID "c") ∧
      ∃ gcNode nsID nsNode E,
        lookupA (GatewayClassID "c") rmC1.gatewayClasses = some gcNode ∧
        gNodeC1.ns = some nsID ∧ lookupA nsID rmC1.namespaces = some nsNode ∧
        specGatewayEffective pmOk gcNode.policies nsNode.policies gNodeC1.policies =
          Except.ok E ∧
        lookupA (GatewayID "default" "g")
            (calculateEffectivePoliciesForGateways pmOk rmC1).1.gateways =
          some { gNodeC1 with effectivePolicies := some E }) :=
  ⟨⟨by decide, by decide, rfl,
      C1_gateway_effective_policies.1 pmOk rmC1 (GatewayID "default" "g2")
        (NewGatewayNode ⟨"default", "g2"⟩) (by decide) (by decide) rfl⟩,
    ⟨by decide, by decide, rfl,
      C1_gateway_effective_policies.2 pmOk rmC1 (by decide) (by decide)
        (GatewayID "default" "g") gNodeC1 (GatewayClassID "c") (by decide) rfl⟩⟩

/-! ## Claim C4: failure semantics of a resolution pass -/

def polOnGatewayA : Policy :=
  { crdID := "k", ns := "default", name := "p-a", isInherited := false,
    targetGroup := gatewayGroupName, targetKind := "Gateway",
    targetNs := "default", targetName := "a" }

/-- Snapshot with three fully connected gateways `a0`, `a`, `b` (in that
iteration order) and one policy attached to `a`. -/
def rmC4 : ResourceModel :=
  let rm := addGateways
    (addNamespace (addGatewayClasses ResourceModel.empty [⟨"c"⟩]) [⟨"default"⟩])
    [⟨"default", "a0"⟩, ⟨"default", "a"⟩, ⟨"default", "b"⟩]
  let rm := (connectGatewayWithGatewayClass rm (GatewayID "default" "a0") (GatewayClassID "c")).1
  let rm := (connectGatewayWithNamespace rm (GatewayID "default" "a0") (NamespaceID "default")).1
  let rm := (connectGatewayWithGatewayClass rm (GatewayID "default" "a") (GatewayClassID "c")).1
  let rm := (connectGatewayWithNamespace rm (GatewayID "default" "a") (NamespaceID "default")).1
  let rm := (connectGatewayWithGatewayClass rm (GatewayID "default" "b") (GatewayClassID "c")).1
  let rm := (connectGatewayWithNamespace rm (GatewayID "default" "b") (NamespaceID "default")).1
  (addPolicyIfTargetExists rm [polOnGatewayA]).1

def gNodeC4a0 : GatewayNode :=
  { gateway := ⟨"default", "a0"⟩, gatewayClass := some (GatewayClassID "c"),
    ns := some (NamespaceID "default") }

def gNodeC4b : GatewayNode :=
  { gateway := ⟨"default", "b"⟩, gatewayClass := some (GatewayClassID "c"),
    ns := some (NamespaceID "default") }

/-- Counterexample to claim C4 as stated: with a capability that reports a
conflict on gateway `a`'s attached policy, the pass aborts and returns
the error, gateway `a0` (processed before the failure) keeps its computed
result, but gateway `b` — a node other than the conflicting one, fully
resolvable — is left with `EffectivePolicies` uncomputed. -/
theorem C4_merge_conflict_counterexample :
    (calculateEffectivePoliciesForGateways pmConflict rmC4).2 =
      some (Err.mergeConflict "conflict") ∧
    lookupA (GatewayID "default" "a0")
        (calculateEffectivePoliciesForGateways pmConflict rmC4).1.gateways =
      some { gNodeC4a0 with effectivePolicies := some [] } ∧
    lookupA (GatewayID "default" "b") rmC4.gateways = some gNodeC4b ∧
    gNodeC4b.gatewayClass = some (GatewayClassID "c") ∧
    lookupA (GatewayID "default" "b")
        (calculateEffectivePoliciesForGateways pmConflict rmC4).1.gateways =
      some gNodeC4b ∧
    gNodeC4b.effectivePolicies = none := by
  decide

/-- Claim C4 (amended): a merge-capability error while resolving one
gateway aborts that node's computation and the *whole pass*, and the
error is returned to the caller (the driver then skips the remaining
passes).  Nodes the pass processed before the failing one keep their
freshly computed results — nothing is rolled back — but the failing node
and every node not yet visited are left exactly as they were
(uncomputed if they had not been computed before). -/
theorem C4_merge_conflict_amended :
    (∀ (pm : PolicyManager) (rm : ResourceModel) (e : Err),
        (calculateEffectivePoliciesForGateways pm rm).2 = some e →
        calculateEffectivePolicies pm rm =
          ((calculateEffectivePoliciesForGateways pm rm).1, some e)) ∧
    (∀ (pm : PolicyManager) (rm : ResourceModel) (e : Err),
        (calculateEffectivePoliciesForGateways pm rm).2 = some e →
        (rm.gateways.map Prod.fst).Nodup →
        ∃ front gid g back,
          rm.gateways = front ++ (gid, g) :: back ∧
          (∃ gcID, g.gatewayClass = some gcID ∧
            gatewayEffective pm rm.gatewayClasses rm.namespaces gcID g = Except.error e) ∧
          (∀ (gid' : gatewayID) (g' : GatewayNode), (gid', g') ∈ front →
            (g'.gatewayClass = none →
              lookupA gid' (calculateEffectivePoliciesForGateways pm rm).1.gateways =
                lookupA gid' rm.gateways) ∧
            (∀ gcID', g'.gatewayClass = some gcID' →
              ∃ eff, gatewayEffective pm rm.gatewayClasses rm.namespaces gcID' g' =
                  Except.ok eff ∧
                lookupA gid' (calculateEffectivePoliciesForGateways pm rm).1.gateways =
                  some { g' with effectivePolicies := some eff })) ∧
          (∀ (gid' : gatewayID) (g' : GatewayNode), (gid', g') ∈ (gid, g) :: back →
            lookupA gid' (calculateEffectivePoliciesForGateways pm rm).1.gateways =
              lookupA gid' rm.gateways)) := by
  constructor
  · intro pm rm e herr
    simp [calculateEffectivePolicies, herr]
  · intro pm rm e herr hnd
    have herr' :
        (passFold (gatewayEffStep pm rm.gatewayClasses rm.namespaces) rm.gateways
          rm.gateways).2 = some e := herr
    obtain ⟨front, gid, g, back, hsplit, hfail, hfrontok, hmap⟩ :=
      passFold_error_split (gatewayEffStep pm rm.gatewayClasses rm.namespaces)
        rm.gateways rm.gateways herr'
    have hndsplit := hnd
    rw [hsplit, List.map_append] at hndsplit
    rw [List.nodup_append] at hndsplit
    obtain ⟨hndfront, hndsuffix, hdisj⟩ := hndsplit
    refine ⟨front, gid, g, back, hsplit, ?_, ?_, ?_⟩
    · cases hcls : g.gatewayClass with
      | none => simp [gatewayEffStep, hcls] at hfail
      | some gcID =>
        simp only [gatewayEffStep, hcls] at hfail
        cases hge : gatewayEffective pm rm.gatewayClasses rm.namespaces gcID g with
        | error e' =>
          rw [hge] at hfail
          injection hfail with hfail
          injection hfail with hfail
          exact ⟨gcID, rfl, by rw [hge, hfail]⟩
        | ok eff =>
          rw [hge] at hfail
          injection hfail with hfail
          cases hfail
    · intro gid' g' hmemfront
      have hp := passFold_success_lookup (gatewayEffStep pm rm.gatewayClasses rm.namespaces)
        front rm.gateways hfrontok hndfront hmemfront
      constructor
      · intro hcls'
        have := hp.1 (by simp [gatewayEffStep, hcls'])
        show lookupA gid'
          (passFold (gatewayEffStep pm rm.gatewayClasses rm.namespaces) rm.gateways
            rm.gateways).1 = lookupA gid' rm.gateways
        rw [hmap]
        exact this
      · intro gcID' hcls'
        cases hge' : gatewayEffective pm rm.gatewayClasses rm.namespaces gcID' g' with
        | error e'' =>
          obtain ⟨v', hv', _⟩ := hp.2 (Except.error e'')
            (by simp [gatewayEffStep, hcls', hge'])
          cases hv'
        | ok eff =>
          obtain ⟨v', hv', hlook⟩ :=
            hp.2 (Except.ok { g' with effectivePolicies := some eff })
              (by simp [gatewayEffStep, hcls', hge'])
          have hveq : v' = { g' with effectivePolicies := some eff } := by
            injection hv' with h
            exact h.symm
          subst hveq
          refine ⟨eff, rfl, ?_⟩
          show lookupA gid'
            (passFold (gatewayEffStep pm rm.gatewayClasses rm.namespaces) rm.gateways
              rm.gateways).1 = _
          rw [hmap]
          exact hlook
    · intro gid' g' hmemsuffix
      have hnotin : gid' ∉ front.map Prod.fst := fun hin =>
        hdisj hin (List.mem_map_of_mem Prod.fst hmemsuffix)
      show lookupA gid'
        (passFold (gatewayEffStep pm rm.gatewayClasses rm.namespaces) rm.gateways
          rm.gateways).1 = lookupA gid' rm.gateways
      rw [hmap]
      exact passFold_lookup_of_not_mem _ front rm.gateways hnotin

/-- Witness for the amended C4 on the concrete failing run over `rmC4`. -/
theorem C4_merge_conflict_amended_witness :
    ((calculateEffectivePoliciesForGateways pmConflict rmC4).2 =
        some (Err.mergeConflict "conflict") ∧
      calculateEffectivePolicies pmConflict rmC4 =
        ((calculateEffectivePoliciesForGateways pmConflict rmC4).1,
          some (Err.mergeConflict "conflict"))) ∧
    ((rmC4.gateways.map Prod.fst).Nodup ∧
      ∃ front gid g back,
        rmC4.gateways = front ++ (gid, g) :: back ∧
        (∃ gcID, g.gatewayClass = some gcID ∧
          gatewayEffective pmConflict rmC4.gatewayClasses rmC4.namespaces gcID g =
            Except.error (Err.mergeConflict "conflict")) ∧
        (∀ (gid' : gatewayID) (g' : GatewayNode), (gid', g') ∈ front →
          (g'.gatewayClass = none →
            lookupA gid'
                (calculateEffectivePoliciesForGateways pmConflict rmC4).1.gateways =
              lookupA gid' rmC4.gateways) ∧
          (∀ gcID', g'.gatewayClass = some gcID' →
            ∃ eff, gatewayEffective pmConflict rmC4.gatewayClasses rmC4.namespaces gcID' g' =
                Except.ok eff ∧
              lookupA gid'
                  (calculateEffectivePoliciesForGateways pmConflict rmC4).1.gateways =
                some { g' with effectivePolicies := some eff })) ∧
        (∀ (gid' : gatewayID) (g' : GatewayNode), (gid', g') ∈ (gid, g) :: back →
          lookupA gid'
              (calculateEffectivePoliciesForGateways pmConflict rmC4).1.gateways =
            lookupA gid' rmC4.gateways)) :=
  ⟨⟨by decide,
      C4_merge_conflict_amended.1 pmConflict rmC4 (Err.mergeConflict "conflict") (by decide)⟩,
    ⟨by decide,
      C4_merge_conflict_amended.2 pmConflict rmC4 (Err.mergeConflict "conflict") (by decide)
        (by decide)⟩⟩

/-! ## Claim C3: the route effective-policy pass -/

/-- The per-gateway merge of the route pass: the gateway's already-computed
effective policies, refined by the route-namespace mapping, refined by
the route's own mapping. -/
def specRouteMergeForGateway (pm : PolicyManager)
    (gwEff nsByKind rByKind : List (String × Policy)) :
    Except String (List (String × Policy)) := do
  let merged ← pm.MergePoliciesOfDifferentHierarchy gwEff nsByKind
  pm.MergePoliciesOfDifferentHierarchy merged rByKind

theorem routeGatewaysLoop_ok {pm : PolicyManager} {gws : List (gatewayID × GatewayNode)}
    {nsByKind rByKind : List (String × Policy)} :
    ∀ (l : List gatewayID) (acc m : List (gatewayID × List (String × Policy))),
      routeGatewaysLoop pm gws nsByKind rByKind l acc = Except.ok m →
      l.Nodup → (∀ gid ∈ l, lookupA gid acc = none) →
      m.map Prod.fst = acc.map Prod.fst ++ l ∧
      (∀ gid ∈ l, ∃ gwNode v, lookupA gid gws = some gwNode ∧
        wrapMerge (specRouteMergeForGateway pm (gwNode.effectivePolicies.getD [])
          nsByKind rByKind) = Except.ok v ∧
        lookupA gid m = some v) ∧
      (∀ gid, gid ∉ l → lookupA gid m = lookupA gid acc)
  | [], acc, m, h, _, _ => by
    simp only [routeGatewaysLoop, Except.ok.injEq] at h
    subst h
    exact ⟨by simp, by simp, fun _ _ => rfl⟩
  | gid :: rest, acc, m, h, hnd, hfresh => by
    simp only [List.nodup_cons] at hnd
    cases hgw : lookupA gid gws with
    | none => rw [routeGatewaysLoop, hgw] at h; cases h
    | some gwNode =>
      simp only [routeGatewaysLoop, hgw] at h
      cases hm1 : pm.MergePoliciesOfDifferentHierarchy (gwNode.effectivePolicies.getD [])
          nsByKind with
      | error m1 => rw [hm1] at h; simp [wrapMerge, except_bind_error] at h
      | ok v1 =>
        rw [hm1] at h
        simp only [wrapMerge, except_bind_ok] at h
        cases hm2 : pm.MergePoliciesOfDifferentHierarchy v1 rByKind with
        | error m2 => rw [hm2] at h; simp [except_bind_error] at h
        | ok v2 =>
          rw [hm2] at h
          simp only [except_bind_ok] at h
          have hfresh' : ∀ gid' ∈ rest, lookupA gid' (insertA gid v2 acc) = none := by
            intro gid' hg'
            have hne : gid' ≠ gid := fun he => hnd.1 (he ▸ hg')
            rw [lookupA_insertA_ne hne]
            exact hfresh gid' (List.mem_cons_of_mem _ hg')
          obtain ⟨hkeys, hvals, hpres⟩ :=
            routeGatewaysLoop_ok rest (insertA gid v2 acc) m h hnd.2 hfresh'
          refine ⟨?_, ?_, ?_⟩
          · rw [hkeys, insertA_of_lookupA_none v2 (hfresh gid (List.mem_cons_self _ _)),
              List.map_append]
            simp
          · intro gid' hg'
            rcases List.mem_cons.mp hg' with he | ht
            · subst he
              refine ⟨gwNode, v2, hgw, ?_, ?_⟩
              · simp [specRouteMergeForGateway, hm1, hm2, wrapMerge, except_bind_ok]
              · rw [hpres gid' hnd.1, lookupA_insertA_self]
            · exact hvals gid' ht
          · intro gid' hgid'
            simp only [List.mem_cons, not_or] at hgid'
            rw [hpres gid' hgid'.2, lookupA_insertA_ne hgid'.1]

theorem routeEffective_ok_inv {pm : PolicyManager} {gws : List (gatewayID × GatewayNode)}
    {nss : List (namespaceID × NamespaceNode)} {r : HTTPRouteNode}
    {m : List (gatewayID × List (String × Policy))}
    (h : routeEffective pm gws nss r = Except.ok m) :
    ∃ nsID nsNode hrByKind hrNsByKind,
      r.ns = some nsID ∧ lookupA nsID nss = some nsNode ∧
      pm.MergePoliciesOfSimilarKind (convertPoliciesMapToSlice r.policies) =
        Except.ok hrByKind ∧
      pm.MergePoliciesOfSimilarKind (convertPoliciesMapToSlice nsNode.policies) =
        Except.ok hrNsByKind ∧
      routeGatewaysLoop pm gws hrNsByKind hrByKind r.gateways [] = Except.ok m := by
  cases h1 : r.ns with
  | none =>
    rw [routeEffective, h1] at h
    simp [derefNamespace, except_bind_error] at h
  | some nsID =>
    cases h2 : lookupA nsID nss with
    | none =>
      rw [routeEffective, h1] at h
      simp [derefNamespace, h2, except_bind_error] at h
    | some nsNode =>
      simp only [routeEffective, h1, derefNamespace, h2, except_bind_ok] at h
      cases hm1 : pm.MergePoliciesOfSimilarKind (convertPoliciesMapToSlice r.policies) with
      | error m1 => rw [hm1] at h; simp [wrapMerge, except_bind_error] at h
      | ok v1 =>
        rw [hm1] at h
        simp only [wrapMerge, except_bind_ok] at h
        cases hm2 : pm.MergePoliciesOfSimilarKind (convertPoliciesMapToSlice nsNode.policies) with
        | error m2 => rw [hm2] at h; simp [except_bind_error] at h
        | ok v2 =>
          rw [hm2] at h
          simp only [except_bind_ok] at h
          exact ⟨nsID, nsNode, v1, v2, rfl, h2, rfl, hm2, h⟩

/-- Claim C3: on a successful route pass, every route's `EffectivePolicies`
is a mapping keyed by gateway identity with exactly one entry per
connected gateway, where the entry for gateway G is computed only from
G's own effective policies, the route-namespace per-kind mapping and the
route's own per-kind mapping (never from another gateway's); and a route
connected to no gateways yields the empty mapping without error. -/
theorem C3_route_effective_policies :
    (∀ (pm : PolicyManager) (rm : ResourceModel),
        (calculateEffectivePoliciesForHTTPRoutes pm rm).2 = none →
        (rm.httpRoutes.map Prod.fst).Nodup →
        ∀ (rid : httpRouteID) (r : HTTPRouteNode),
          lookupA rid rm.httpRoutes = some r → r.gateways.Nodup →
          ∃ nsID nsNode hrByKind hrNsByKind m,
            r.ns = some nsID ∧ lookupA nsID rm.namespaces = some nsNode ∧
            pm.MergePoliciesOfSimilarKind (convertPoliciesMapToSlice r.policies) =
              Except.ok hrByKind ∧
            pm.MergePoliciesOfSimilarKind (convertPoliciesMapToSlice nsNode.policies) =
              Except.ok hrNsByKind ∧
            lookupA rid (calculateEffectivePoliciesForHTTPRoutes pm rm).1.httpRoutes =
              some { r with effectivePolicies := some m } ∧
            m.map Prod.fst = r.gateways ∧
            (∀ gid ∈ r.gateways, ∃ gwNode v, lookupA gid rm.gateways = some gwNode ∧
              wrapMerge (specRouteMergeForGateway pm (gwNode.effectivePolicies.getD [])
                hrNsByKind hrByKind) = Except.ok v ∧
              lookupA gid m = some v)) ∧
    (∀ (pm : PolicyManager) (gws : List (gatewayID × GatewayNode))
        (nss : List (namespaceID × NamespaceNode)) (r : HTTPRouteNode)
        (nsID : namespaceID) (nsNode : NamespaceNode)
        (hrByKind hrNsByKind : List (String × Policy)),
        r.ns = some nsID → lookupA nsID nss = some nsNode →
        pm.MergePoliciesOfSimilarKind (convertPoliciesMapToSlice r.policies) =
          Except.ok hrByKind →
        pm.MergePoliciesOfSimilarKind (convertPoliciesMapToSlice nsNode.policies) =
          Except.ok hrNsByKind →
        r.gateways = [] →
        routeEffective pm gws nss r = Except.ok []) := by
  constructor
  · intro pm rm hsucc hnd rid r hlook hgnd
    have hmem := mem_of_lookupA_eq_some hlook
    have hsucc' :
        (passFold (routeEffStep pm rm.gateways rm.namespaces) rm.httpRoutes
          rm.httpRoutes).2 = none := hsucc
    have hp := passFold_success_lookup (routeEffStep pm rm.gateways rm.namespaces)
      rm.httpRoutes rm.httpRoutes hsucc' hnd hmem
    cases hre : routeEffective pm rm.gateways rm.namespaces r with
    | error e =>
      obtain ⟨v', hv', _⟩ := hp.2 (Except.error e) (by simp [routeEffStep, hre])
      cases hv'
    | ok m =>
      obtain ⟨v', hv', hlook'⟩ :=
        hp.2 (Except.ok { r with effectivePolicies := some m })
          (by simp [routeEffStep, hre])
      have hveq : v' = { r with effectivePolicies := some m } := by
        injection hv' with h
        exact h.symm
      subst hveq
      obtain ⟨nsID, nsNode, hrBK, hrNsBK, h1, h2, hm1, hm2, hloop⟩ :=
        routeEffective_ok_inv hre
      obtain ⟨hkeys, hvals, _⟩ :=
        routeGatewaysLoop_ok r.gateways [] m hloop hgnd (fun _ _ => rfl)
      refine ⟨nsID, nsNode, hrBK, hrNsBK, m, h1, h2, hm1, hm2, hlook', ?_, hvals⟩
      simpa using hkeys
  · intro pm gws nss r nsID nsNode hrBK hrNsBK h1 h2 hm1 hm2 hempty
    simp [routeEffective, h1, derefNamespace, h2, except_bind_ok, hm1, hm2, wrapMerge,
      hempty, routeGatewaysLoop]

/-- `rmC1` extended with route `r1` (connected to gateway `g` and the
namespace) and route `r0` (no gateways), with the gateway pass already
run. -/
def rmC3base : ResourceModel :=
  let rm := addHTTPRoutes rmC1 [⟨"default", "r1"⟩, ⟨"default", "r0"⟩]
  let rm := (connectHTTPRouteWithGateway rm (HTTPRouteID "default" "r1")
    (GatewayID "default" "g")).1
  let rm := (connectHTTPRouteWithNamespace rm (HTTPRouteID "default" "r1")
    (NamespaceID "default")).1
  (connectHTTPRouteWithNamespace rm (HTTPRouteID "default" "r0") (NamespaceID "default")).1

def rmC3 : ResourceModel := (calculateEffectivePoliciesForGateways pmOk rmC3base).1

def rNodeC3r1 : HTTPRouteNode :=
  { httpRoute := ⟨"default", "r1"⟩, ns := some (NamespaceID "default"),
    gateways := [GatewayID "default" "g"] }

def rNodeC3r0 : HTTPRouteNode :=
  { httpRoute := ⟨"default", "r0"⟩, ns := some (NamespaceID "default") }

def nsNodeC3 : NamespaceNode :=
  { namespaceResource := ⟨"default"⟩, gateways := [GatewayID "default" "g"],
    httpRoutes := [HTTPRouteID "default" "r1", HTTPRouteID "default" "r0"] }

/-- Witness for C3 on `rmC3`: route `r1` gets a one-entry mapping for its
gateway, and the gateway-less `r0` evaluates to the empty mapping without
error. -/
theorem C3_route_effective_policies_witness :
    ((calculateEffectivePoliciesForHTTPRoutes pmOk rmC3).2 = none ∧
      (rmC3.httpRoutes.map Prod.fst).Nodup ∧
      lookupA (HTTPRouteID "default" "r1") rmC3.httpRoutes = some rNodeC3r1 ∧
      rNodeC3r1.gateways.Nodup ∧
      ∃ nsID nsNode hrByKind hrNsByKind m,
        rNodeC3r1.ns = some nsID ∧ lookupA nsID rmC3.namespaces = some nsNode ∧
        pmOk.MergePoliciesOfSimilarKind (convertPoliciesMapToSlice rNodeC3r1.policies) =
          Except.ok hrByKind ∧
        pmOk.MergePoliciesOfSimilarKind (convertPoliciesMapToSlice nsNode.policies) =
          Except.ok hrNsByKind ∧
        lookupA (HTTPRouteID "default" "r1")
            (calculateEffectivePoliciesForHTTPRoutes pmOk rmC3).1.httpRoutes =
          some { rNodeC3r1 with effectivePolicies := some m } ∧
        m.map Prod.fst = rNodeC3r1.gateways ∧
        (∀ gid ∈ rNodeC3r1.gateways, ∃ gwNode v,
          lookupA gid rmC3.gateways = some gwNode ∧
          wrapMerge (specRouteMergeForGateway pmOk (gwNode.effectivePolicies.getD [])
            hrNsByKind hrByKind) = Except.ok v ∧
          lookupA gid m = some v)) ∧
    (rNodeC3r0.ns = some (NamespaceID "default") ∧
      lookupA (NamespaceID "default") rmC3.namespaces = some nsNodeC3 ∧
      pmOk.MergePoliciesOfSimilarKind (convertPoliciesMapToSlice rNodeC3r0.policies) =
        Except.ok [] ∧
      pmOk.MergePoliciesOfSimilarKind (convertPoliciesMapToSlice nsNodeC3.policies) =
        Except.ok [] ∧
      rNodeC3r0.gateways = [] ∧
      routeEffective pmOk rmC3.gateways rmC3.namespaces rNodeC3r0 = Except.ok []) :=
  ⟨⟨by decide, by decide, by decide, by decide,
      C3_route_effective_policies.1 pmOk rmC3 (by decide) (by decide)
        (HTTPRouteID "default" "r1") rNodeC3r1 (by decide) (by decide)⟩,
    ⟨rfl, by decide, rfl, rfl, rfl,
      C3_route_effective_policies.2 pmOk rmC3.gateways rmC3.namespaces rNodeC3r0
        (NamespaceID "default") nsNodeC3 [] [] rfl (by decide) rfl rfl rfl⟩⟩

/-! ## Claim C2: the backend effective-policy pass -/

/-- Phase 1 of the claim, one route's contribution: each per-gateway
mapping of the route is folded into the accumulator with the
same-hierarchy (peer) merge; a gateway not yet present contributes
against the empty mapping. -/
def specPeerFoldOne (pm : PolicyManager) :
    List (gatewayID × List (String × Policy)) →
    List (gatewayID × List (String × Policy)) →
    Except String (List (gatewayID × List (String × Policy)))
  | [], acc => Except.ok acc
  | (gid, pols) :: rest, acc => do
    let merged ← pm.MergePoliciesOfSameHierarchy ((lookupA gid acc).getD []) pols
    specPeerFoldOne pm rest (insertA gid merged acc)

/-- Phase 1 of the claim: fold the per-gateway effective policies of every
route referencing the backend, route after route, as peers. -/
def specBackendPhase1 (pm : PolicyManager) :
    List (List (gatewayID × List (String × Policy))) →
    List (gatewayID × List (String × Policy)) →
    Except String (List (gatewayID × List (String × Policy)))
  | [], acc => Except.ok acc
  | m :: rest, acc => do
    let acc' ← specPeerFoldOne pm m acc
    specBackendPhase1 pm rest acc'

/-- Phase 2 of the claim: only after every route is folded in, overlay
(once per gateway) the backend-namespace mapping and then the backend's
own mapping with the ancestor-then-specific merge. -/
def specBackendOverlay (pm : PolicyManager) (nsByKind bByKind : List (String × Policy)) :
    List (gatewayID × List (String × Policy)) →
    Except String (List (gatewayID × List (String × Policy)))
  | [] => Except.ok []
  | (gid, v) :: rest => do
    let v1 ← pm.MergePoliciesOfDifferentHierarchy v nsByKind
    let v2 ← pm.MergePoliciesOfDifferentHierarchy v1 bByKind
    let rest' ← specBackendOverlay pm nsByKind bByKind rest
    Except.ok ((gid, v2) :: rest')

/-- The claim's two-phase formula for one backend. -/
def specBackendEffective (pm : PolicyManager)
    (routeMaps : List (List (gatewayID × List (String × Policy))))
    (nsPolicies ownPolicies : List (policyID × Policy)) :
    Except String (List (gatewayID × List (String × Policy))) := do
  let ownByKind ← pm.MergePoliciesOfSimilarKind (convertPoliciesMapToSlice ownPolicies)
  let nsByKind ← pm.MergePoliciesOfSimilarKind (convertPoliciesMapToSlice nsPolicies)
  let folded ← specBackendPhase1 pm routeMaps []
  specBackendOverlay pm nsByKind ownByKind folded

/-- The per-gateway effective-policy mappings contributed by a list of
routes, in route order (a route with uncomputed effective policies
contributes the empty mapping, like Go's nil map). -/
def routeEffMaps (hrs : List (httpRouteID × HTTPRouteNode)) (l : List httpRouteID) :
    List (List (gatewayID × List (String × Policy))) :=
  l.map (fun rid => ((lookupA rid hrs).map (fun rn => rn.effectivePolicies.getD [])).getD [])

theorem backendGatewayFold_eq_spec (pm : PolicyManager) :
    ∀ (l acc : List (gatewayID × List (String × Policy))),
      backendGatewayFold pm l acc = wrapMerge (specPeerFoldOne pm l acc)
  | [], acc => rfl
  | (gid, pols) :: rest, acc => by
    rw [backendGatewayFold, specPeerFoldOne]
    cases hm : pm.MergePoliciesOfSameHierarchy ((lookupA gid acc).getD []) pols with
    | error m => simp [hm, wrapMerge, except_bind_error]
    | ok v =>
      simp only [hm, wrapMerge, except_bind_ok]
      exact backendGatewayFold_eq_spec pm rest _

theorem backendRoutesLoop_eq_spec (pm : PolicyManager)
    (hrs : List (httpRouteID × HTTPRouteNode)) :
    ∀ (l : List httpRouteID) (acc : List (gatewayID × List (String × Policy))),
      (∀ rid ∈ l, (lookupA rid hrs).isSome) →
      backendRoutesLoop pm hrs l acc =
        wrapMerge (specBackendPhase1 pm (routeEffMaps hrs l) acc)
  | [], acc, _ => rfl
  | rid :: rest, acc, hall => by
    obtain ⟨rn, hrn⟩ := Option.isSome_iff_exists.mp (hall rid (List.mem_cons_self _ _))
    simp only [backendRoutesLoop, hrn, routeEffMaps, List.map_cons, specBackendPhase1,
      Option.map_some', Option.getD_some]
    rw [backendGatewayFold_eq_spec]
    cases hs : specPeerFoldOne pm (rn.effectivePolicies.getD []) acc with
    | error m => simp [wrapMerge, except_bind_error]
    | ok acc' =>
      simp only [wrapMerge, except_bind_ok]
      exact backendRoutesLoop_eq_spec pm hrs rest acc'
        (fun r hr => hall r (List.mem_cons_of_mem _ hr))

theorem backendOverlayLoop_eq_spec (pm : PolicyManager)
    (nsByKind bByKind : List (String × Policy)) :
    ∀ l : List (gatewayID × List (String × Policy)),
      backendOverlayLoop pm nsByKind bByKind l =
        wrapMerge (specBackendOverlay pm nsByKind bByKind l)
  | [] => rfl
  | (gid, v) :: rest => by
    rw [backendOverlayLoop, specBackendOverlay]
    cases hm1 : pm.MergePoliciesOfDifferentHierarchy v nsByKind with
    | error m => simp [hm1, wrapMerge, except_bind_error]
    | ok v1 =>
      simp only [hm1, wrapMerge, except_bind_ok]
      cases hm2 : pm.MergePoliciesOfDifferentHierarchy v1 bByKind with
      | error m => simp [hm2, wrapMerge, except_bind_error]
      | ok v2 =>
        simp only [hm2, wrapMerge, except_bind_ok]
        rw [backendOverlayLoop_eq_spec pm nsByKind bByKind rest]
        cases hr : specBackendOverlay pm nsByKind bByKind rest with
        | error m => simp [wrapMerge, except_bind_error]
        | ok r => simp [wrapMerge, except_bind_ok]

theorem backendRoutesLoop_present {pm : PolicyManager}
    {hrs : List (httpRouteID × HTTPRouteNode)} :
    ∀ (l : List httpRouteID) (acc m : List (gatewayID × List (String × Policy))),
      backendRoutesLoop pm hrs l acc = Except.ok m →
      ∀ rid ∈ l, (lookupA rid hrs).isSome
  | [], _, _, _ => by simp
  | rid :: rest, acc, m, h => by
    intro rid' hmem
    cases hrn : lookupA rid hrs with
    | none => rw [backendRoutesLoop, hrn] at h; cases h
    | some rn =>
      simp only [backendRoutesLoop, hrn] at h
      cases hfold : backendGatewayFold pm (rn.effectivePolicies.getD []) acc with
      | error e => rw [hfold] at h; cases h
      | ok acc' =>
        rw [hfold] at h
        simp only [except_bind_ok] at h
        rcases List.mem_cons.mp hmem with he | ht
        · subst he
          rw [hrn]
          rfl
        · exact backendRoutesLoop_present rest acc' m h rid' ht

theorem backendEffective_ok_inv {pm : PolicyManager}
    {hrs : List (httpRouteID × HTTPRouteNode)} {nss : List (namespaceID × NamespaceNode)}
    {b : BackendNode} {E : List (gatewayID × List (String × Policy))}
    (h : backendEffective pm hrs nss b = Except.ok E) :
    ∃ nsID nsNode, b.ns = some nsID ∧ lookupA nsID nss = some nsNode ∧
      (∀ rid ∈ b.httpRoutes, (lookupA rid hrs).isSome) ∧
      specBackendEffective pm (routeEffMaps hrs b.httpRoutes) nsNode.policies b.policies =
        Except.ok E := by
  cases h1 : b.ns with
  | none =>
    rw [backendEffective, h1] at h
    simp [derefNamespace, except_bind_error] at h
  | some nsID =>
    cases h2 : lookupA nsID nss with
    | none =>
      rw [backendEffective, h1] at h
      simp [derefNamespace, h2, except_bind_error] at h
    | some nsNode =>
      simp only [backendEffective, h1, derefNamespace, h2, except_bind_ok] at h
      cases hm1 : pm.MergePoliciesOfSimilarKind (convertPoliciesMapToSlice b.policies) with
      | error m => rw [hm1] at h; simp [wrapMerge, except_bind_error] at h
      | ok ownByKind =>
        rw [hm1] at h
        simp only [wrapMerge, except_bind_ok] at h
        cases hm2 : pm.MergePoliciesOfSimilarKind (convertPoliciesMapToSlice nsNode.policies) with
        | error m => rw [hm2] at h; simp [except_bind_error] at h
        | ok nsByKind =>
          rw [hm2] at h
          simp only [except_bind_ok] at h
          cases hl : backendRoutesLoop pm hrs b.httpRoutes [] with
          | error e => rw [hl] at h; simp [except_bind_error] at h
          | ok folded =>
            have hpres := backendRoutesLoop_present b.httpRoutes [] folded hl
            rw [hl] at h
            simp only [except_bind_ok] at h
            refine ⟨nsID, nsNode, rfl, h2, hpres, ?_⟩
            rw [backendRoutesLoop_eq_spec pm hrs b.httpRoutes [] hpres] at hl
            rw [backendOverlayLoop_eq_spec] at h
            cases hp1 : specBackendPhase1 pm (routeEffMaps hrs b.httpRoutes) [] with
            | error m => rw [hp1] at hl; simp [wrapMerge] at hl
            | ok folded' =>
              rw [hp1] at hl
              simp only [wrapMerge, Except.ok.injEq] at hl
              cases ho : specBackendOverlay pm nsByKind ownByKind folded with
              | error m => rw [ho] at h; simp [wrapMerge] at h
              | ok E' =>
                rw [ho] at h
                simp only [wrapMerge, Except.ok.injEq] at h
                simp only [specBackendEffective, hm1, hm2, hp1, except_bind_ok]
                rw [hl, ho, h]

/-- Claim C2: on a successful backend pass, every backend's
`EffectivePolicies` equals the claim's two-phase formula: the per-gateway
effective policies of all routes referencing the backend are folded
together route after route with the same-hierarchy (peer) merge — so two
routes reaching the same backend and gateway meet as peers, never as
ancestor and descendant — and only after every route is folded in are the
backend-namespace and then the backend's own per-kind mappings applied,
once per gateway, with the different-hierarchy merge. -/
theorem C2_backend_effective_policies :
    ∀ (pm : PolicyManager) (rm : ResourceModel),
      (calculateEffectivePoliciesForBackends pm rm).2 = none →
      (rm.backends.map Prod.fst).Nodup →
      ∀ (bid : backendID) (b : BackendNode), lookupA bid rm.backends = some b →
        ∃ nsID nsNode E,
          b.ns = some nsID ∧ lookupA nsID rm.namespaces = some nsNode ∧
          (∀ rid ∈ b.httpRoutes, (lookupA rid rm.httpRoutes).isSome) ∧
          specBackendEffective pm (routeEffMaps rm.httpRoutes b.httpRoutes)
            nsNode.policies b.policies = Except.ok E ∧
          lookupA bid (calculateEffectivePoliciesForBackends pm rm).1.backends =
            some { b with effectivePolicies := some E } := by
  intro pm rm hsucc hnd bid b hlook
  have hmem := mem_of_lookupA_eq_some hlook
  have hsucc' :
      (passFold (backendEffStep pm rm.httpRoutes rm.namespaces) rm.backends
        rm.backends).2 = none := hsucc
  have hp := passFold_success_lookup (backendEffStep pm rm.httpRoutes rm.namespaces)
    rm.backends rm.backends hsucc' hnd hmem
  cases hbe : backendEffective pm rm.httpRoutes rm.namespaces b with
  | error e =>
    obtain ⟨v', hv', _⟩ := hp.2 (Except.error e) (by simp [backendEffStep, hbe])
    cases hv'
  | ok E =>
    obtain ⟨v', hv', hlook'⟩ :=
      hp.2 (Except.ok { b with effectivePolicies := some E })
        (by simp [backendEffStep, hbe])
    have hveq : v' = { b with effectivePolicies := some E } := by
      injection hv' with h
      exact h.symm
    subst hveq
    obtain ⟨nsID, nsNode, h1, h2, hpres, hspec⟩ := backendEffective_ok_inv hbe
    exact ⟨nsID, nsNode, E, h1, h2, hpres, hspec, hlook'⟩

/-- `rmC3base` extended with backend `bk` referenced by route `r1`, with
the gateway and route passes already run. -/
def rmC2base : ResourceModel :=
  let rm := addBackends rmC3base [⟨"", "Service", "default", "bk"⟩]
  let rm := (connectHTTPRouteWithBackend rm (HTTPRouteID "default" "r1")
    (BackendID "" "Service" "default" "bk")).1
  (connectBackendWithNamespace rm (BackendID "" "Service" "default" "bk")
    (NamespaceID "default")).1

def rmC2 : ResourceModel :=
  (calculateEffectivePoliciesForHTTPRoutes pmOk
    (calculateEffectivePoliciesForGateways pmOk rmC2base).1).1

def bNodeC2 : BackendNode :=
  { backend := ⟨"", "Service", "default", "bk"⟩, ns := some (NamespaceID "default"),
    httpRoutes := [HTTPRouteID "default" "r1"] }

/-- Witness for C2 on `rmC2`. -/
theorem C2_backend_effective_policies_witness :
    ((calculateEffectivePoliciesForBackends pmOk rmC2).2 = none ∧
      (rmC2.backends.map Prod.fst).Nodup ∧
      lookupA (BackendID "" "Service" "default" "bk") rmC2.backends = some bNodeC2) ∧
    (∃ nsID nsNode E,
      bNodeC2.ns = some nsID ∧ lookupA nsID rmC2.namespaces = some nsNode ∧
      (∀ rid ∈ bNodeC2.httpRoutes, (lookupA rid rmC2.httpRoutes).isSome) ∧
      specBackendEffective pmOk (routeEffMaps rmC2.httpRoutes bNodeC2.httpRoutes)
        nsNode.policies bNodeC2.policies = Except.ok E ∧
      lookupA (BackendID "" "Service" "default" "bk")
          (calculateEffectivePoliciesForBackends pmOk rmC2).1.backends =
        some { bNodeC2 with effectivePolicies := some E }) :=
  ⟨⟨by decide, by decide, by decide⟩,
    C2_backend_effective_policies pmOk rmC2 (by decide) (by decide)
      (BackendID "" "Service" "default" "bk") bNodeC2 (by decide)⟩

/-! ## Claim C9: the inherited-policy passes -/

theorem lookupA_isSome_of_mem {e : κ × ν} : ∀ {l : List (κ × ν)}, e ∈ l →
    (lookupA e.1 l).isSome := by
  intro l he
  cases h : lookupA e.1 l with
  | some v => rfl
  | none =>
    exact absurd (List.mem_map_of_mem Prod.fst he) ((lookupA_eq_none_iff e.1 l).mp h)

theorem lookupA_isSome_iff_mem_keys (k : κ) (l : List (κ × ν)) :
    (lookupA k l).isSome ↔ k ∈ l.map Prod.fst := by
  cases h : lookupA k l with
  | some v =>
    simp only [Option.isSome_some, true_iff]
    exact List.mem_map_of_mem Prod.fst (mem_of_lookupA_eq_some h)
  | none =>
    simp only [Option.isSome_none, Bool.false_eq_true, false_iff]
    exact (lookupA_eq_none_iff k l).mp h

/-- A pass whose loop body always succeeds never reports an error. -/
theorem passFold_no_error (f : κ → ν → Option (Except Err ν)) :
    ∀ (l acc : List (κ × ν)),
      (∀ e ∈ l, f e.1 e.2 = none ∨ ∃ v', f e.1 e.2 = some (Except.ok v')) →
      (passFold f acc l).2 = none
  | [], _, _ => rfl
  | (k, v) :: rest, acc, hall => by
    rcases hall (k, v) (List.mem_cons_self _ _) with hf | ⟨v', hf⟩
    · simp only [passFold, hf]
      exact passFold_no_error f rest acc (fun e he => hall e (List.mem_cons_of_mem _ he))
    · simp only [passFold, hf]
      exact passFold_no_error f rest _ (fun e he => hall e (List.mem_cons_of_mem _ he))

/-- The pass keeps the key list of the mapping it updates. -/
theorem passFold_keys (f : κ → ν → Option (Except Err ν)) :
    ∀ (l acc : List (κ × ν)), (∀ e ∈ l, (lookupA e.1 acc).isSome) →
      (passFold f acc l).1.map Prod.fst = acc.map Prod.fst
  | [], _, _ => rfl
  | (k, v) :: rest, acc, hall => by
    cases hf : f k v with
    | none =>
      simp only [passFold, hf]
      exact passFold_keys f rest acc (fun e he => hall e (List.mem_cons_of_mem _ he))
    | some r =>
      cases r with
      | error e => simp [passFold, hf]
      | ok v' =>
        simp only [passFold, hf]
        have hkeys := keys_insertA_of_isSome v' (hall (k, v) (List.mem_cons_self _ _))
        rw [passFold_keys f rest (insertA k v' acc) (fun e he =>
          (lookupA_isSome_insertA k e.1 v' acc).mpr
            (Or.inr (hall e (List.mem_cons_of_mem _ he)))), hkeys]

/-- The node's namespace reference is set and resolves in the mapping. -/
def nsResolvedIn (nss : List (namespaceID × NamespaceNode)) :
    Option namespaceID → Bool
  | none => false
  | some nsID => (lookupA nsID nss).isSome

/-- The node's class reference, when set, resolves in the mapping. -/
def classResolvedIn (gcs : List (gatewayClassID × GatewayClassNode)) :
    Option gatewayClassID → Bool
  | none => true
  | some gcID => (lookupA gcID gcs).isSome

/-- Structural well-formedness the gateway inherited pass relies on. -/
def InhWFGateways (rm : ResourceModel) : Prop :=
  ∀ e ∈ rm.gateways, nsResolvedIn rm.namespaces e.2.ns = true ∧
    classResolvedIn rm.gatewayClasses e.2.gatewayClass = true

instance : Decidable (InhWFGateways rm) :=
  inferInstanceAs (Decidable (∀ e ∈ rm.gateways, _ ∧ _))

/-- Structural well-formedness the route inherited pass relies on. -/
def InhWFRoutes (rm : ResourceModel) : Prop :=
  ∀ e ∈ rm.httpRoutes, nsResolvedIn rm.namespaces e.2.ns = true ∧
    e.2.gateways.all (fun gid => (lookupA gid rm.gateways).isSome) = true

instance : Decidable (InhWFRoutes rm) :=
  inferInstanceAs (Decidable (∀ e ∈ rm.httpRoutes, _ ∧ _))

theorem gatewayInherited_ok {gcs : List (gatewayClassID × GatewayClassNode)}
    {nss : List (namespaceID × NamespaceNode)} (g : GatewayNode)
    (hns : nsResolvedIn nss g.ns = true)
    (hcls : classResolvedIn gcs g.gatewayClass = true) :
    ∃ v, gatewayInherited gcs nss g = Except.ok v ∧
      (g.gatewayClass = none →
        ∃ nsID nsNode, g.ns = some nsID ∧ lookupA nsID nss = some nsNode ∧
          v = copyA [] (filterInheritablePolicies nsNode.policies)) := by
  cases h1 : g.ns with
  | none => rw [h1] at hns; simp [nsResolvedIn] at hns
  | some nsID =>
    rw [h1] at hns
    simp only [nsResolvedIn] at hns
    obtain ⟨nsNode, h2⟩ := Option.isSome_iff_exists.mp hns
    cases h3 : g.gatewayClass with
    | none =>
      refine ⟨copyA [] (filterInheritablePolicies nsNode.policies), ?_, ?_⟩
      · simp [gatewayInherited, h1, h2, derefNamespace, except_bind_ok, h3]
      · intro _
        exact ⟨nsID, nsNode, rfl, h2, rfl⟩
    | some gcID =>
      rw [h3] at hcls
      simp only [classResolvedIn] at hcls
      obtain ⟨gcNode, h4⟩ := Option.isSome_iff_exists.mp hcls
      refine ⟨copyA (copyA [] (filterInheritablePolicies nsNode.policies))
        (filterInheritablePolicies gcNode.policies), ?_, ?_⟩
      · simp [gatewayInherited, h1, h2, derefNamespace, except_bind_ok, h3, h4]
      · intro hcontra
        exact Option.noConfusion hcontra

theorem routeInhLoop_ok {gws : List (gatewayID × GatewayNode)} :
    ∀ (l : List gatewayID) (acc : List (policyID × Policy)),
      (∀ gid ∈ l, (lookupA gid gws).isSome) →
      ∃ v, routeInhLoop gws l acc = Except.ok v
  | [], acc, _ => ⟨acc, rfl⟩
  | gid :: rest, acc, hall => by
    obtain ⟨gn, hgn⟩ := Option.isSome_iff_exists.mp (hall gid (List.mem_cons_self _ _))
    obtain ⟨v, hv⟩ := routeInhLoop_ok rest
      (copyA (copyA acc (gn.inheritedPolicies.getD []))
        (filterInheritablePolicies gn.policies))
      (fun g hg => hall g (List.mem_cons_of_mem _ hg))
    exact ⟨v, by rw [routeInhLoop, hgn]; exact hv⟩

theorem routeInherited_ok {gws : List (gatewayID × GatewayNode)}
    {nss : List (namespaceID × NamespaceNode)} (r : HTTPRouteNode)
    (hns : nsResolvedIn nss r.ns = true)
    (hgws : r.gateways.all (fun gid => (lookupA gid gws).isSome) = true) :
    ∃ v, routeInherited gws nss r = Except.ok v := by
  cases h1 : r.ns with
  | none => rw [h1] at hns; simp [nsResolvedIn] at hns
  | some nsID =>
    rw [h1] at hns
    simp only [nsResolvedIn] at hns
    obtain ⟨nsNode, h2⟩ := Option.isSome_iff_exists.mp hns
    obtain ⟨v, hv⟩ := routeInhLoop_ok r.gateways
      (copyA [] (filterInheritablePolicies nsNode.policies))
      (fun g hg => by
        have := List.all_eq_true.mp hgws g hg
        simpa using this)
    refine ⟨v, ?_⟩
    simp only [routeInherited, h1, derefNamespace, h2, except_bind_ok]
    exact hv

theorem gatewayEffStep_ok_shape {pm : PolicyManager}
    {gcs : List (gatewayClassID × GatewayClassNode)}
    {nss : List (namespaceID × NamespaceNode)} {k : gatewayID} {v v' : GatewayNode}
    (h : gatewayEffStep pm gcs nss k v = some (Except.ok v')) :
    ∃ eff, v' = { v with effectivePolicies := some eff } := by
  cases hcls : v.gatewayClass with
  | none => simp [gatewayEffStep, hcls] at h
  | some gcID =>
    cases hge : gatewayEffective pm gcs nss gcID v with
    | error e => simp [gatewayEffStep, hcls, hge] at h
    | ok eff =>
      simp only [gatewayEffStep, hcls, hge, Option.some.injEq, Except.ok.injEq] at h
      exact ⟨eff, h.symm⟩

theorem routeEffStep_ok_shape {pm : PolicyManager} {gws : List (gatewayID × GatewayNode)}
    {nss : List (namespaceID × NamespaceNode)} {k : httpRouteID} {v v' : HTTPRouteNode}
    (h : routeEffStep pm gws nss k v = some (Except.ok v')) :
    ∃ eff, v' = { v with effectivePolicies := some eff } := by
  cases hre : routeEffective pm gws nss v with
  | error e => simp [routeEffStep, hre] at h
  | ok eff =>
    simp only [routeEffStep, hre, Option.some.injEq, Except.ok.injEq] at h
    exact ⟨eff, h.symm⟩

theorem gwPass_gateways_keys {pm : PolicyManager} {rm : ResourceModel} :
    (calculateEffectivePoliciesForGateways pm rm).1.gateways.map Prod.fst =
      rm.gateways.map Prod.fst :=
  passFold_keys _ rm.gateways rm.gateways (fun _ he => lookupA_isSome_of_mem he)

theorem gwPass_gateways_fields {pm : PolicyManager} {rm : ResourceModel}
    (hnd : (rm.gateways.map Prod.fst).Nodup) :
    ∀ (gid : gatewayID) (g' : GatewayNode),
      lookupA gid (calculateEffectivePoliciesForGateways pm rm).1.gateways = some g' →
      ∃ g, lookupA gid rm.gateways = some g ∧ g'.ns = g.ns ∧
        g'.gatewayClass = g.gatewayClass ∧ g'.policies = g.policies := by
  intro gid g' h
  rcases passFold_lookup_some_inv (gatewayEffStep pm rm.gatewayClasses rm.namespaces)
      rm.gateways rm.gateways h with hun | ⟨v, hv, hf⟩
  · exact ⟨g', hun, rfl, rfl, rfl⟩
  · obtain ⟨eff, heq⟩ := gatewayEffStep_ok_shape hf
    subst heq
    exact ⟨v, lookupA_eq_some_of_mem hv hnd, rfl, rfl, rfl⟩

theorem rtPass_httpRoutes_keys {pm : PolicyManager} {rm : ResourceModel} :
    (calculateEffectivePoliciesForHTTPRoutes pm rm).1.httpRoutes.map Prod.fst =
      rm.httpRoutes.map Prod.fst :=
  passFold_keys _ rm.httpRoutes rm.httpRoutes (fun _ he => lookupA_isSome_of_mem he)

theorem rtPass_httpRoutes_fields {pm : PolicyManager} {rm : ResourceModel}
    (hnd : (rm.httpRoutes.map Prod.fst).Nodup) :
    ∀ (rid : httpRouteID) (r' : HTTPRouteNode),
      lookupA rid (calculateEffectivePoliciesForHTTPRoutes pm rm).1.httpRoutes = some r' →
      ∃ r, lookupA rid rm.httpRoutes = some r ∧ r'.ns = r.ns ∧
        r'.gateways = r.gateways ∧ r'.policies = r.policies := by
  intro rid r' h
  rcases passFold_lookup_some_inv (routeEffStep pm rm.gateways rm.namespaces)
      rm.httpRoutes rm.httpRoutes h with hun | ⟨v, hv, hf⟩
  · exact ⟨r', hun, rfl, rfl, rfl⟩
  · obtain ⟨eff, heq⟩ := routeEffStep_ok_shape hf
    subst heq
    exact ⟨v, lookupA_eq_some_of_mem hv hnd, rfl, rfl, rfl⟩

/-- The effective-policy passes (even when they abort with a merge
conflict) leave the namespace and class mappings untouched, keep every
kind's key list, and change nothing of a gateway or route node except its
computed `effectivePolicies` field. -/
theorem calcEff_preserves {pm : PolicyManager} {rm : ResourceModel}
    (hndG : (rm.gateways.map Prod.fst).Nodup)
    (hndR : (rm.httpRoutes.map Prod.fst).Nodup) :
    (calculateEffectivePolicies pm rm).1.namespaces = rm.namespaces ∧
    (calculateEffectivePolicies pm rm).1.gatewayClasses = rm.gatewayClasses ∧
    (calculateEffectivePolicies pm rm).1.gateways.map Prod.fst =
      rm.gateways.map Prod.fst ∧
    (calculateEffectivePolicies pm rm).1.httpRoutes.map Prod.fst =
      rm.httpRoutes.map Prod.fst ∧
    (∀ (gid : gatewayID) (g' : GatewayNode),
      lookupA gid (calculateEffectivePolicies pm rm).1.gateways = some g' →
      ∃ g, lookupA gid rm.gateways = some g ∧ g'.ns = g.ns ∧
        g'.gatewayClass = g.gatewayClass ∧ g'.policies = g.policies) ∧
    (∀ (rid : httpRouteID) (r' : HTTPRouteNode),
      lookupA rid (calculateEffectivePolicies pm rm).1.httpRoutes = some r' →
      ∃ r, lookupA rid rm.httpRoutes = some r ∧ r'.ns = r.ns ∧
        r'.gateways = r.gateways ∧ r'.policies = r.policies) := by
  cases h1 : (calculateEffectivePoliciesForGateways pm rm).2 with
  | some e =>
    have heq : calculateEffectivePolicies pm rm =
        ((calculateEffectivePoliciesForGateways pm rm).1, some e) := by
      simp [calculateEffectivePolicies, h1]
    rw [heq]
    exact ⟨rfl, rfl, gwPass_gateways_keys, rfl, gwPass_gateways_fields hndG,
      fun rid r' h => ⟨r', h, rfl, rfl, rfl⟩⟩
  | none =>
    cases h2 : (calculateEffectivePoliciesForHTTPRoutes pm
        (calculateEffectivePoliciesForGateways pm rm).1).2 with
    | some e =>
      have heq : calculateEffectivePolicies pm rm =
          ((calculateEffectivePoliciesForHTTPRoutes pm
            (calculateEffectivePoliciesForGateways pm rm).1).1, some e) := by
        simp [calculateEffectivePolicies, h1, h2]
      rw [heq]
      refine ⟨rfl, rfl, gwPass_gateways_keys, ?_, gwPass_gateways_fields hndG, ?_⟩
      · rw [rtPass_httpRoutes_keys]
        exact rfl
      · intro rid r' h
        exact @rtPass_httpRoutes_fields pm
          (calculateEffectivePoliciesForGateways pm rm).1 hndR rid r' h
    | none =>
      have heq : calculateEffectivePolicies pm rm =
          calculateEffectivePoliciesForBackends pm
            (calculateEffectivePoliciesForHTTPRoutes pm
              (calculateEffectivePoliciesForGateways pm rm).1).1 := by
        simp [calculateEffectivePolicies, h1, h2]
      rw [heq]
      refine ⟨rfl, rfl, gwPass_gateways_keys, ?_, gwPass_gateways_fields hndG, ?_⟩
      · rw [show (calculateEffectivePoliciesForBackends pm
            (calculateEffectivePoliciesForHTTPRoutes pm
              (calculateEffectivePoliciesForGateways pm rm).1).1).1.httpRoutes =
            (calculateEffectivePoliciesForHTTPRoutes pm
              (calculateEffectivePoliciesForGateways pm rm).1).1.httpRoutes from rfl]
        rw [rtPass_httpRoutes_keys]
        exact rfl
      · intro rid r' h
        exact @rtPass_httpRoutes_fields pm
          (calculateEffectivePoliciesForGateways pm rm).1 hndR rid r' h

theorem calcInhGateways_no_error {rm : ResourceModel} (h : InhWFGateways rm) :
    (calculateInheritedPoliciesForGateways rm).2 = none :=
  passFold_no_error _ rm.gateways rm.gateways (fun e he => Or.inr (by
    obtain ⟨v, hv, _⟩ := gatewayInherited_ok e.2 (h e he).1 (h e he).2
    exact ⟨{ e.2 with inheritedPolicies := some v }, by simp [gatewayInhStep, hv]⟩))

theorem calcInhRoutes_no_error {rm : ResourceModel} (h : InhWFRoutes rm) :
    (calculateInheritedPoliciesForHTTPRoutes rm).2 = none :=
  passFold_no_error _ rm.httpRoutes rm.httpRoutes (fun e he => Or.inr (by
    obtain ⟨v, hv⟩ := routeInherited_ok e.2 (h e he).1 (h e he).2
    exact ⟨{ e.2 with inheritedPolicies := some v }, by simp [routeInhStep, hv]⟩))

theorem calcInhGateways_keys {rm : ResourceModel} :
    (calculateInheritedPoliciesForGateways rm).1.gateways.map Prod.fst =
      rm.gateways.map Prod.fst :=
  passFold_keys _ rm.gateways rm.gateways (fun _ he => lookupA_isSome_of_mem he)

/-- C9: the inherited-policy passes never consult the merge capability. On
a model whose namespace references (and set class and gateway references)
resolve, the gateway pass and the route pass complete without error and
populate `InheritedPolicies` on every node; a gateway whose class
reference is unresolved still gets exactly the inheritable policies of its
namespace; and for an arbitrary policy manager — in particular one whose
merges all conflict, aborting the effective-policy passes — both inherited
passes still complete without error on the model those passes leave
behind. -/
theorem C9_inherited_policies (pm : PolicyManager) (rm : ResourceModel)
    (hndG : (rm.gateways.map Prod.fst).Nodup)
    (hndR : (rm.httpRoutes.map Prod.fst).Nodup)
    (hWFg : InhWFGateways rm) (hWFr : InhWFRoutes rm) :
    (calculateInheritedPoliciesForGateways rm).2 = none ∧
    (∀ gid g, lookupA gid rm.gateways = some g →
      ∃ v, gatewayInherited rm.gatewayClasses rm.namespaces g = Except.ok v ∧
        lookupA gid (calculateInheritedPoliciesForGateways rm).1.gateways =
          some { g with inheritedPolicies := some v } ∧
        (g.gatewayClass = none →
          ∃ nsID nsNode, g.ns = some nsID ∧
            lookupA nsID rm.namespaces = some nsNode ∧
            v = copyA [] (filterInheritablePolicies nsNode.policies))) ∧
    (calculateInheritedPoliciesForHTTPRoutes rm).2 = none ∧
    (∀ rid r, lookupA rid rm.httpRoutes = some r →
      ∃ v, routeInherited rm.gateways rm.namespaces r = Except.ok v ∧
        lookupA rid (calculateInheritedPoliciesForHTTPRoutes rm).1.httpRoutes =
          some { r with inheritedPolicies := some v }) ∧
    (calculateInheritedPoliciesForGateways
      (calculateEffectivePolicies pm rm).1).2 = none ∧
    (calculateInheritedPoliciesForHTTPRoutes
      (calculateInheritedPoliciesForGateways
        (calculateEffectivePolicies pm rm).1).1).2 = none := by
  obtain ⟨hNS, hGC, hGK, hRK, hGF, hRF⟩ := @calcEff_preserves pm rm hndG hndR
  have ha : (calculateInheritedPoliciesForGateways rm).2 = none :=
    calcInhGateways_no_error hWFg
  have hb : (calculateInheritedPoliciesForHTTPRoutes rm).2 = none :=
    calcInhRoutes_no_error hWFr
  have hndGE : ((calculateEffectivePolicies pm rm).1.gateways.map Prod.fst).Nodup := by
    rw [hGK]; exact hndG
  have hndRE : ((calculateEffectivePolicies pm rm).1.httpRoutes.map Prod.fst).Nodup := by
    rw [hRK]; exact hndR
  have hWFgE : InhWFGateways (calculateEffectivePolicies pm rm).1 := by
    intro e he
    obtain ⟨g, hg, hns, hcls, _⟩ := hGF e.1 e.2 (lookupA_eq_some_of_mem he hndGE)
    have hcond := hWFg (e.1, g) (mem_of_lookupA_eq_some hg)
    constructor
    · rw [hNS, hns]; exact hcond.1
    · rw [hGC, hcls]; exact hcond.2
  have hcE : (calculateInheritedPoliciesForGateways
      (calculateEffectivePolicies pm rm).1).2 = none :=
    calcInhGateways_no_error hWFgE
  have hkeysI : List.map Prod.fst (calculateInheritedPoliciesForGateways
      (calculateEffectivePolicies pm rm).1).1.gateways =
      List.map Prod.fst rm.gateways := by
    rw [calcInhGateways_keys, hGK]
  have hWFrI : InhWFRoutes (calculateInheritedPoliciesForGateways
      (calculateEffectivePolicies pm rm).1).1 := by
    intro e he
    have he' : e ∈ (calculateEffectivePolicies pm rm).1.httpRoutes := he
    obtain ⟨r, hr, hnse, hgwse, _⟩ := hRF e.1 e.2 (lookupA_eq_some_of_mem he' hndRE)
    have hcond := hWFr (e.1, r) (mem_of_lookupA_eq_some hr)
    constructor
    · show nsResolvedIn (calculateEffectivePolicies pm rm).1.namespaces e.2.ns = true
      rw [hNS, hnse]; exact hcond.1
    · rw [List.all_eq_true]
      intro gid hgid
      rw [hgwse] at hgid
      have hmem : gid ∈ List.map Prod.fst rm.gateways :=
        (lookupA_isSome_iff_mem_keys gid rm.gateways).mp
          (by simpa using List.all_eq_true.mp hcond.2 gid hgid)
      show (lookupA gid (calculateInheritedPoliciesForGateways
          (calculateEffectivePolicies pm rm).1).1.gateways).isSome = true
      rw [lookupA_isSome_iff_mem_keys, hkeysI]
      exact hmem
  refine ⟨ha, ?_, hb, ?_, hcE, calcInhRoutes_no_error hWFrI⟩
  · intro gid g hlook
    have he := mem_of_lookupA_eq_some hlook
    have hcond := hWFg (gid, g) he
    obtain ⟨v, hv, hclsnone⟩ := gatewayInherited_ok g hcond.1 hcond.2
    have hstep : gatewayInhStep rm.gatewayClasses rm.namespaces gid g =
        some (Except.ok { g with inheritedPolicies := some v }) := by
      simp [gatewayInhStep, hv]
    obtain ⟨v', hv'eq, hlk⟩ :=
      (passFold_success_lookup (gatewayInhStep rm.gatewayClasses rm.namespaces)
        rm.gateways rm.gateways ha hndG he).2 _ hstep
    injection hv'eq with hv''
    rw [← hv''] at hlk
    exact ⟨v, hv, hlk, hclsnone⟩
  · intro rid r hlook
    have he := mem_of_lookupA_eq_some hlook
    have hcond := hWFr (rid, r) he
    obtain ⟨v, hv⟩ := routeInherited_ok r hcond.1 hcond.2
    have hstep : routeInhStep rm.gateways rm.namespaces rid r =
        some (Except.ok { r with inheritedPolicies := some v }) := by
      simp [routeInhStep, hv]
    obtain ⟨v', hv'eq, hlk⟩ :=
      (passFold_success_lookup (routeInhStep rm.gateways rm.namespaces)
        rm.httpRoutes rm.httpRoutes hb hndR he).2 _ hstep
    injection hv'eq with hv''
    rw [← hv''] at hlk
    exact ⟨v, hv, hlk⟩

/-- `rmC3base` (class `c` with an inheritable policy, namespace `default`,
gateways `g` and `g2`, routes `r1` and `r0`) with gateway `g2` — the one
whose class reference is unresolved — additionally connected to the
namespace, so every node's namespace reference resolves. -/
def rmC9base : ResourceModel :=
  (connectGatewayWithNamespace rmC3base (GatewayID "default" "g2")
    (NamespaceID "default")).1

/-- Witness for C9 on `rmC9base` under `pmConflict`: the hypotheses hold,
the effective passes do abort with a conflict, and the theorem's
conclusion follows. -/
theorem C9_inherited_policies_witness :
    ((rmC9base.gateways.map Prod.fst).Nodup ∧
      (rmC9base.httpRoutes.map Prod.fst).Nodup ∧
      InhWFGateways rmC9base ∧ InhWFRoutes rmC9base ∧
      (calculateEffectivePolicies pmConflict rmC9base).2.isSome = true) ∧
    ((calculateInheritedPoliciesForGateways rmC9base).2 = none ∧
      (∀ gid g, lookupA gid rmC9base.gateways = some g →
        ∃ v, gatewayInherited rmC9base.gatewayClasses rmC9base.namespaces g =
            Except.ok v ∧
          lookupA gid (calculateInheritedPoliciesForGateways rmC9base).1.gateways =
            some { g with inheritedPolicies := some v } ∧
          (g.gatewayClass = none →
            ∃ nsID nsNode, g.ns = some nsID ∧
              lookupA nsID rmC9base.namespaces = some nsNode ∧
              v = copyA [] (filterInheritablePolicies nsNode.policies))) ∧
      (calculateInheritedPoliciesForHTTPRoutes rmC9base).2 = none ∧
      (∀ rid r, lookupA rid rmC9base.httpRoutes = some r →
        ∃ v, routeInherited rmC9base.gateways rmC9base.namespaces r = Except.ok v ∧
          lookupA rid
              (calculateInheritedPoliciesForHTTPRoutes rmC9base).1.httpRoutes =
            some { r with inheritedPolicies := some v }) ∧
      (calculateInheritedPoliciesForGateways
        (calculateEffectivePolicies pmConflict rmC9base).1).2 = none ∧
      (calculateInheritedPoliciesForHTTPRoutes
        (calculateInheritedPoliciesForGateways
          (calculateEffectivePolicies pmConflict rmC9base).1).1).2 = none) :=
  ⟨⟨by decide, by decide, by decide, by decide, by decide⟩,
    C9_inherited_policies pmConflict rmC9base (by decide) (by decide)
      (by decide) (by decide)⟩

end gwctl
